import Mathlib

/-!
Shape builders and the shape factory (`builder.cpp`).

A shallow embedding of the three builders (`CircleBuilder`, `RectangleBuilder`,
`TriangleBuilder`), of the `IfaceShape` view and of `ShapeFactory`.

* The C++ code is a template over `FloatType`; the embedding is generic over a
  type `F` that carries the operations the code uses (`0`, `1`, the conversion
  of an `int`, `-`, `+`, `*`, `/`, `<=`) and the two `<cmath>` functions it
  calls (`std::sqrt`, `std::atan2`), with no law assumed of them.
* Two readings of the arithmetic are used.  Over the reals (more generally
  over a linearly ordered field) the operations are exact; `Dbl` is IEEE-754
  binary64, the type `double` that `main` instantiates the template with.
* A member function is a function from the object before the call to the pair
  of the call's outcome (`.ok ()` or the exception thrown) and the object
  after the call.  When a call throws, the object after the call is the object
  as it was at the `throw`.
* A factory operation returns either the finished shape or the exception that
  unwound it (the `unique_ptr` then destroys the object).
-/

namespace DesignPatterns

/-- The two `<cmath>` functions used by the code. -/
class FloatMath (F : Type) where
  /-- Models `std::sqrt`. -/
  sqrt : F → F
  /-- Models `std::atan2 (y, x)`. -/
  atan2 : F → F → F

/-- The exceptions thrown by the builders.  `invalid_argument what val` is
`std::invalid_argument (what + std::to_string (val))`; `domain_error what` is
`std::domain_error (what)`. -/
inductive Error (F : Type) where
  | invalid_argument (what : String) (val : F)
  | domain_error (what : String)
  deriving DecidableEq

/-- The spec's `InvalidParameter` is the C++ `std::invalid_argument`. -/
def Error.isInvalidParameter {F : Type} : Error F → Bool
  | .invalid_argument _ _ => true
  | .domain_error _ => false

/-- The spec's `InvalidGeometry` is the C++ `std::domain_error`. -/
def Error.isInvalidGeometry {F : Type} : Error F → Bool
  | .invalid_argument _ _ => false
  | .domain_error _ => true

/-- The outcome of a call of a `void` member function. -/
abbrev Outcome (F : Type) := Except (Error F) Unit

/-- The call returned normally (a factory operation: returned a shape). -/
def succeeds {F α : Type} : Except (Error F) α → Bool
  | .ok _ => true
  | .error _ => false

/-- The call threw `std::invalid_argument`. -/
def failsInvalidParameter {F α : Type} : Except (Error F) α → Bool
  | .ok _ => false
  | .error e => e.isInvalidParameter

/-- The call threw `std::domain_error`. -/
def failsInvalidGeometry {F α : Type} : Except (Error F) α → Bool
  | .ok _ => false
  | .error e => e.isInvalidGeometry

section Code

variable {F : Type} [Zero F] [One F] [NatCast F] [Neg F] [Add F] [Sub F] [Mul F] [Div F] [LE F]
  [DecidableRel (fun a b : F => a ≤ b)] [FloatMath F]

/-- The constant `PI<FloatType> = std::atan2 (0, -1)`. -/
def PI : F := FloatMath.atan2 (0 : F) (-1 : F)

/-! ### CircleBuilder -/

/-- The fields of `CircleBuilder`. -/
structure CircleBuilder (F : Type) where
  radius : F
  area : F
  perimeter : F
  deriving DecidableEq

/-- A freshly constructed `CircleBuilder`: every field is `{0}`. -/
def CircleBuilder.make : CircleBuilder F :=
  { radius := 0, area := 0, perimeter := 0 }

/-- Models `CircleBuilder::setRadius`. -/
def CircleBuilder.setRadius (self : CircleBuilder F) (val : F) : Outcome F × CircleBuilder F :=
  if val ≤ 0 then
    (.error (.invalid_argument "Circle radius must be positive, got: " val), self)
  else
    (.ok (), { self with radius := val })

/-- Models `CircleBuilder::compute`. -/
def CircleBuilder.compute (self : CircleBuilder F) : Outcome F × CircleBuilder F :=
  let self := { self with area := PI * self.radius * self.radius }
  let self := { self with perimeter := 2 * PI * self.radius }
  (.ok (), self)

/-- Models `CircleBuilder::getArea`. -/
def CircleBuilder.getArea (self : CircleBuilder F) : F := self.area

/-- Models `CircleBuilder::getPerimeter`. -/
def CircleBuilder.getPerimeter (self : CircleBuilder F) : F := self.perimeter

/-! ### RectangleBuilder -/

/-- The fields of `RectangleBuilder`. -/
structure RectangleBuilder (F : Type) where
  length : F
  breadth : F
  area : F
  perimeter : F
  deriving DecidableEq

/-- A freshly constructed `RectangleBuilder`: every field is `{0}`. -/
def RectangleBuilder.make : RectangleBuilder F :=
  { length := 0, breadth := 0, area := 0, perimeter := 0 }

/-- Models `RectangleBuilder::setLength`. -/
def RectangleBuilder.setLength (self : RectangleBuilder F) (val : F) :
    Outcome F × RectangleBuilder F :=
  if val ≤ 0 then
    (.error (.invalid_argument "Rectangle length must be positive, got: " val), self)
  else
    (.ok (), { self with length := val })

/-- Models `RectangleBuilder::setBreadth`. -/
def RectangleBuilder.setBreadth (self : RectangleBuilder F) (val : F) :
    Outcome F × RectangleBuilder F :=
  if val ≤ 0 then
    (.error (.invalid_argument "Rectangle breadth must be positive, got: " val), self)
  else
    (.ok (), { self with breadth := val })

/-- Models `RectangleBuilder::compute`. -/
def RectangleBuilder.compute (self : RectangleBuilder F) : Outcome F × RectangleBuilder F :=
  let self := { self with area := self.length * self.breadth }
  let self := { self with perimeter := 2 * (self.length + self.breadth) }
  (.ok (), self)

/-- Models `RectangleBuilder::getArea`. -/
def RectangleBuilder.getArea (self : RectangleBuilder F) : F := self.area

/-- Models `RectangleBuilder::getPerimeter`. -/
def RectangleBuilder.getPerimeter (self : RectangleBuilder F) : F := self.perimeter

/-! ### TriangleBuilder -/

/-- The fields of `TriangleBuilder`. -/
structure TriangleBuilder (F : Type) where
  a : F
  b : F
  c : F
  area : F
  perimeter : F
  deriving DecidableEq

/-- A freshly constructed `TriangleBuilder`: every field is `{0}`. -/
def TriangleBuilder.make : TriangleBuilder F :=
  { a := 0, b := 0, c := 0, area := 0, perimeter := 0 }

/-- Models `TriangleBuilder::setSideA`. -/
def TriangleBuilder.setSideA (self : TriangleBuilder F) (val : F) :
    Outcome F × TriangleBuilder F :=
  if val ≤ 0 then
    (.error (.invalid_argument "Triangle side A must be positive, got: " val), self)
  else
    (.ok (), { self with a := val })

/-- Models `TriangleBuilder::setSideB`. -/
def TriangleBuilder.setSideB (self : TriangleBuilder F) (val : F) :
    Outcome F × TriangleBuilder F :=
  if val ≤ 0 then
    (.error (.invalid_argument "Triangle side B must be positive, got: " val), self)
  else
    (.ok (), { self with b := val })

/-- Models `TriangleBuilder::setSideC`. -/
def TriangleBuilder.setSideC (self : TriangleBuilder F) (val : F) :
    Outcome F × TriangleBuilder F :=
  if val ≤ 0 then
    (.error (.invalid_argument "Triangle side C must be positive, got: " val), self)
  else
    (.ok (), { self with c := val })

/-- Models `TriangleBuilder::compute`. -/
def TriangleBuilder.compute (self : TriangleBuilder F) : Outcome F × TriangleBuilder F :=
  if self.a + self.b ≤ self.c ∨ self.a + self.c ≤ self.b ∨ self.b + self.c ≤ self.a then
    (.error (.domain_error "Triangle sides do not satisfy the triangle inequality"), self)
  else
    let s : F := (self.a + self.b + self.c) / 2
    let self := { self with
      area := FloatMath.sqrt (s * (s - self.a) * (s - self.b) * (s - self.c)) }
    let self := { self with perimeter := self.a + self.b + self.c }
    (.ok (), self)

/-- Models `TriangleBuilder::getArea`. -/
def TriangleBuilder.getArea (self : TriangleBuilder F) : F := self.area

/-- Models `TriangleBuilder::getPerimeter`. -/
def TriangleBuilder.getPerimeter (self : TriangleBuilder F) : F := self.perimeter

/-! ### The shape view and the factory -/

/-- A `Shape<FloatType>` owns one of the three builders, seen through
`IfaceShape`. -/
inductive Shape (F : Type) where
  | circle (obj : CircleBuilder F)
  | rectangle (obj : RectangleBuilder F)
  | triangle (obj : TriangleBuilder F)
  deriving DecidableEq

/-- The virtual `IfaceShape::getArea`. -/
def Shape.getArea : Shape F → F
  | .circle obj => obj.getArea
  | .rectangle obj => obj.getArea
  | .triangle obj => obj.getArea

/-- The virtual `IfaceShape::getPerimeter`. -/
def Shape.getPerimeter : Shape F → F
  | .circle obj => obj.getPerimeter
  | .rectangle obj => obj.getPerimeter
  | .triangle obj => obj.getPerimeter

/-- Sequencing of statements inside a factory operation: after a call that
returned, the rest runs on the object; after a call that threw, the exception
leaves the operation and the object is gone. -/
def andThen {σ α : Type} (r : Outcome F × σ) (rest : σ → Except (Error F) α) :
    Except (Error F) α :=
  match r with
  | (.ok _, obj) => rest obj
  | (.error e, _) => .error e

/-- Models `ShapeFactory::createCircle`. -/
def ShapeFactory.createCircle (r : F) : Except (Error F) (Shape F) :=
  let obj : CircleBuilder F := CircleBuilder.make
  andThen (obj.setRadius r) fun obj =>
  andThen obj.compute fun obj =>
  .ok (Shape.circle obj)

/-- Models `ShapeFactory::createRectangle`. -/
def ShapeFactory.createRectangle (l b : F) : Except (Error F) (Shape F) :=
  let obj : RectangleBuilder F := RectangleBuilder.make
  andThen (obj.setLength l) fun obj =>
  andThen (obj.setBreadth b) fun obj =>
  andThen obj.compute fun obj =>
  .ok (Shape.rectangle obj)

/-- Models `ShapeFactory::createTriangle`. -/
def ShapeFactory.createTriangle (a b c : F) : Except (Error F) (Shape F) :=
  let obj : TriangleBuilder F := TriangleBuilder.make
  andThen (obj.setSideA a) fun obj =>
  andThen (obj.setSideB b) fun obj =>
  andThen (obj.setSideC c) fun obj =>
  andThen obj.compute fun obj =>
  .ok (Shape.triangle obj)

/-- Models `ShapeFactory::createSquare`. -/
def ShapeFactory.createSquare (side : F) : Except (Error F) (Shape F) :=
  let obj : RectangleBuilder F := RectangleBuilder.make
  andThen (obj.setLength side) fun obj =>
  andThen (obj.setBreadth side) fun obj =>
  andThen obj.compute fun obj =>
  .ok (Shape.rectangle obj)

/-- Models `ShapeFactory::createIsoscalesTriangle`. -/
def ShapeFactory.createIsoscalesTriangle (equal_side other_side : F) :
    Except (Error F) (Shape F) :=
  let obj : TriangleBuilder F := TriangleBuilder.make
  andThen (obj.setSideA equal_side) fun obj =>
  andThen (obj.setSideB equal_side) fun obj =>
  andThen (obj.setSideC other_side) fun obj =>
  andThen obj.compute fun obj =>
  .ok (Shape.triangle obj)

/-- Models `ShapeFactory::createEquilateralTriangle`. -/
def ShapeFactory.createEquilateralTriangle (side : F) : Except (Error F) (Shape F) :=
  let obj : TriangleBuilder F := TriangleBuilder.make
  andThen (obj.setSideA side) fun obj =>
  andThen (obj.setSideB side) fun obj =>
  andThen (obj.setSideC side) fun obj =>
  andThen obj.compute fun obj =>
  .ok (Shape.triangle obj)

/-! ### Call sequences on a builder -/

/-- A builder object together with a record of its history: `lastCompute` is
the object as the latest `compute` call that returned normally found it, and
`none` while no `compute` call has returned normally. -/
structure Tracked (σ : Type) where
  obj : σ
  lastCompute : Option σ

/-- A call a client can make on a `CircleBuilder`. -/
inductive CircleCall (F : Type) where
  | setRadius (val : F)
  | compute

/-- One call on a `CircleBuilder`.  An exception is caught by the client, who
goes on with the object as the `throw` left it. -/
def CircleCall.step (h : Tracked (CircleBuilder F)) :
    CircleCall F → Tracked (CircleBuilder F)
  | .setRadius val => { h with obj := (h.obj.setRadius val).2 }
  | .compute =>
    { obj := h.obj.compute.2
      lastCompute := if succeeds h.obj.compute.1 then some h.obj else h.lastCompute }

/-- A sequence of calls on a freshly constructed `CircleBuilder`. -/
def CircleBuilder.runCalls (calls : List (CircleCall F)) : Tracked (CircleBuilder F) :=
  calls.foldl CircleCall.step { obj := CircleBuilder.make, lastCompute := none }

/-- A call a client can make on a `RectangleBuilder`. -/
inductive RectangleCall (F : Type) where
  | setLength (val : F)
  | setBreadth (val : F)
  | compute

/-- One call on a `RectangleBuilder`.  An exception is caught by the client,
who goes on with the object as the `throw` left it. -/
def RectangleCall.step (h : Tracked (RectangleBuilder F)) :
    RectangleCall F → Tracked (RectangleBuilder F)
  | .setLength val => { h with obj := (h.obj.setLength val).2 }
  | .setBreadth val => { h with obj := (h.obj.setBreadth val).2 }
  | .compute =>
    { obj := h.obj.compute.2
      lastCompute := if succeeds h.obj.compute.1 then some h.obj else h.lastCompute }

/-- A sequence of calls on a freshly constructed `RectangleBuilder`. -/
def RectangleBuilder.runCalls (calls : List (RectangleCall F)) :
    Tracked (RectangleBuilder F) :=
  calls.foldl RectangleCall.step { obj := RectangleBuilder.make, lastCompute := none }

/-- A call a client can make on a `TriangleBuilder`. -/
inductive TriangleCall (F : Type) where
  | setSideA (val : F)
  | setSideB (val : F)
  | setSideC (val : F)
  | compute

/-- One call on a `TriangleBuilder`.  An exception is caught by the client,
who goes on with the object as the `throw` left it. -/
def TriangleCall.step (h : Tracked (TriangleBuilder F)) :
    TriangleCall F → Tracked (TriangleBuilder F)
  | .setSideA val => { h with obj := (h.obj.setSideA val).2 }
  | .setSideB val => { h with obj := (h.obj.setSideB val).2 }
  | .setSideC val => { h with obj := (h.obj.setSideC val).2 }
  | .compute =>
    { obj := h.obj.compute.2
      lastCompute := if succeeds h.obj.compute.1 then some h.obj else h.lastCompute }

/-- A sequence of calls on a freshly constructed `TriangleBuilder`. -/
def TriangleBuilder.runCalls (calls : List (TriangleCall F)) :
    Tracked (TriangleBuilder F) :=
  calls.foldl TriangleCall.step { obj := TriangleBuilder.make, lastCompute := none }

/-- What a client observes of a factory result through `IfaceShape`: nothing
when the operation threw, otherwise the area and the perimeter of the shape. -/
def observed (r : Except (Error F) (Shape F)) : Option (F × F) :=
  match r with
  | .ok shape => some (shape.getArea, shape.getPerimeter)
  | .error _ => none

end Code

/-! ### Reading the arithmetic in IEEE-754 binary64 (`double`) -/

/-- A value of the type `double`: a finite number `m * 2 ^ e`, an infinity or
a NaN.  The two zeros are identified (no operation of the builders tells them
apart), and so are the NaNs.  The operations below return finite values in
lowest terms: `m` odd, or `m = 0` and `e = 0`. -/
inductive Dbl where
  | fin (m : ℤ) (e : ℤ)
  | inf (negative : Bool)
  | nan
  deriving DecidableEq

/-- The position of the leading bit of `n`, found by halving at most `fuel`
times. -/
def Dbl.log2Fuel : ℕ → ℕ → ℕ
  | 0, _ => 0
  | fuel + 1, n => if n < 2 then 0 else Dbl.log2Fuel fuel (n / 2) + 1

/-- The position of the leading bit of `n`: `2 ^ log2 n <= n < 2 ^ (log2 n + 1)`
for `n > 0`. -/
def Dbl.log2 (n : ℕ) : ℕ := Dbl.log2Fuel n n

/-- The finite value `± n * 2 ^ e` in lowest terms, or the infinity of that
sign when the value is `2 ^ 1024` or more. -/
def Dbl.pack (negative : Bool) (n : ℕ) (e : ℤ) : Dbl :=
  if n = 0 then .fin 0 0
  else if 1024 ≤ e + Dbl.log2 n then .inf negative
  else
    let d : ℕ := Nat.gcd n (2 ^ Dbl.log2 n)
    .fin (if negative then -((n / d : ℕ) : ℤ) else ((n / d : ℕ) : ℤ)) (e + Dbl.log2 d)

/-- Rounding to nearest, ties to even, into binary64 (53 significant bits,
least exponent `-1074`) of the number `± x * 2 ^ e`, where `x = n` when
`sticky` is false and `n < x < n + 1` when it is true.  A call with `sticky`
true passes an `n` of at least 64 bits. -/
def Dbl.round (negative : Bool) (n : ℕ) (sticky : Bool) (e : ℤ) : Dbl :=
  if n = 0 then .fin 0 0
  else
    let t : ℤ := max (e + Dbl.log2 n - 52) (-1074)
    if t ≤ e then Dbl.pack negative n e
    else
      let s : ℕ := (t - e).toNat
      let q : ℕ := n / 2 ^ s
      let r : ℕ := n % 2 ^ s
      let half : ℕ := 2 ^ (s - 1)
      let up : Bool :=
        decide (half < r) || (decide (r = half) && (sticky || decide (q % 2 = 1)))
      Dbl.pack negative (if up then q + 1 else q) t

/-- The conversion of a non-negative `int` to `double`. -/
def Dbl.ofNat (n : ℕ) : Dbl := Dbl.round false n false 0

/-- Unary minus. -/
def Dbl.neg : Dbl → Dbl
  | .fin m e => .fin (-m) e
  | .inf s => .inf (!s)
  | .nan => .nan

/-- The binary64 sum: the exact sum, rounded. -/
def Dbl.add : Dbl → Dbl → Dbl
  | .nan, _ => .nan
  | _, .nan => .nan
  | .inf s, .inf s' => if s = s' then .inf s else .nan
  | .inf s, .fin _ _ => .inf s
  | .fin _ _, .inf s => .inf s
  | .fin m e, .fin m' e' =>
    let e0 : ℤ := min e e'
    let x : ℤ := m * 2 ^ (e - e0).toNat + m' * 2 ^ (e' - e0).toNat
    Dbl.round (decide (x < 0)) x.natAbs false e0

/-- The binary64 difference. -/
def Dbl.sub (x y : Dbl) : Dbl := Dbl.add x (Dbl.neg y)

/-- The binary64 product: the exact product, rounded. -/
def Dbl.mul : Dbl → Dbl → Dbl
  | .nan, _ => .nan
  | _, .nan => .nan
  | .inf s, .inf s' => .inf (s != s')
  | .inf s, .fin m _ => if m = 0 then .nan else .inf (s != decide (m < 0))
  | .fin m _, .inf s => if m = 0 then .nan else .inf (s != decide (m < 0))
  | .fin m e, .fin m' e' =>
    Dbl.round (decide (m * m' < 0)) (m * m').natAbs false (e + e')

/-- The binary64 quotient: the exact quotient, rounded.  (With the zeros
identified, a non-zero number over zero takes the sign of the numerator.) -/
def Dbl.div : Dbl → Dbl → Dbl
  | .nan, _ => .nan
  | _, .nan => .nan
  | .inf _, .inf _ => .nan
  | .inf s, .fin m _ => .inf (s != decide (m < 0))
  | .fin _ _, .inf _ => .fin 0 0
  | .fin m e, .fin m' e' =>
    if m' = 0 then
      if m = 0 then .nan else .inf (decide (m < 0))
    else
      let k : ℕ := 64 + Dbl.log2 m'.natAbs
      let num : ℕ := m.natAbs * 2 ^ k
      Dbl.round (decide (m < 0) != decide (m' < 0)) (num / m'.natAbs)
        (decide (num % m'.natAbs ≠ 0)) (e - e' - k)

/-- The comparison `x <= y` of two `double` values; false when either is a
NaN. -/
def Dbl.ble : Dbl → Dbl → Bool
  | .nan, _ => false
  | _, .nan => false
  | .inf s, .inf s' => s || !s'
  | .inf s, .fin _ _ => s
  | .fin _ _, .inf s => !s
  | .fin m e, .fin m' e' =>
    decide (m * 2 ^ (e - min e e').toNat ≤ m' * 2 ^ (e' - min e e').toNat)

/-- The integer square root, found bit by bit from bit `i` downwards. -/
def Dbl.isqrtBits (n : ℕ) : ℕ → ℕ → ℕ
  | 0, r => if (r + 1) * (r + 1) ≤ n then r + 1 else r
  | i + 1, r =>
    Dbl.isqrtBits n i
      (if (r + 2 ^ (i + 1)) * (r + 2 ^ (i + 1)) ≤ n then r + 2 ^ (i + 1) else r)

/-- The integer square root of `n`. -/
def Dbl.isqrt (n : ℕ) : ℕ := Dbl.isqrtBits n (Dbl.log2 n / 2 + 1) 0

/-- The binary64 `std::sqrt`: the exact square root, rounded. -/
def Dbl.sqrt : Dbl → Dbl
  | .nan => .nan
  | .inf s => if s then .nan else .inf false
  | .fin m e =>
    if m < 0 then .nan
    else
      let k : ℕ := if (e - 128) % 2 = 0 then 128 else 129
      let x : ℕ := m.toNat * 2 ^ k
      let r : ℕ := Dbl.isqrt x
      Dbl.round false r (decide (r * r ≠ x)) ((e - k) / 2)

/-- The `double` nearest to π, bit pattern `0x400921FB54442D18`. -/
def Dbl.pi : Dbl := .fin 884279719003555 (-48)

/-- The binary64 `std::atan2 (y, x)` on the x axis, where the language
standard fixes it: π for `y = 0` and `x < 0`, and 0 for `y = 0` and `x >= 0`.
Off the x axis the result is an approximation chosen by the library, which the
code never asks for (it evaluates `atan2 (0, -1)` only); there the model
answers NaN. -/
def Dbl.atan2 (y x : Dbl) : Dbl :=
  if y = .fin 0 0 then
    if x = .nan then .nan
    else if Dbl.ble x (.fin 0 0) && !Dbl.ble (.fin 0 0) x then Dbl.pi
    else .fin 0 0
  else .nan

instance : Zero Dbl := ⟨.fin 0 0⟩

instance : One Dbl := ⟨.fin 1 0⟩

instance : NatCast Dbl := ⟨Dbl.ofNat⟩

instance : Neg Dbl := ⟨Dbl.neg⟩

instance : Add Dbl := ⟨Dbl.add⟩

instance : Sub Dbl := ⟨Dbl.sub⟩

instance : Mul Dbl := ⟨Dbl.mul⟩

instance : Div Dbl := ⟨Dbl.div⟩

instance : LE Dbl := ⟨fun x y => Dbl.ble x y = true⟩

instance : DecidableRel (fun x y : Dbl => x ≤ y) :=
  fun x y => inferInstanceAs (Decidable (Dbl.ble x y = true))

/-- The binary64 reading of `<cmath>`. -/
instance doubleFloatMath : FloatMath Dbl where
  sqrt := Dbl.sqrt
  atan2 := Dbl.atan2

/-! ### Reading the arithmetic over the reals -/

/-- The real-number reading of `<cmath>`: `std::sqrt` is the real square root
and `std::atan2 (y, x)` is the argument of `x + y i`. -/
noncomputable instance realFloatMath : FloatMath ℝ where
  sqrt := Real.sqrt
  atan2 y x := Complex.arg ⟨x, y⟩

/-- Heron's formula, as the spec writes it. -/
noncomputable def heron (a b c : ℝ) : ℝ :=
  Real.sqrt ((a + b + c) / 2 * ((a + b + c) / 2 - a) * ((a + b + c) / 2 - b)
    * ((a + b + c) / 2 - c))

/-! ### Helper lemmas -/

theorem PI_real : (PI : ℝ) = Real.pi := by
  have h : (⟨-1, 0⟩ : ℂ) = -1 := by
    apply Complex.ext <;> simp
  show Complex.arg ⟨-1, 0⟩ = Real.pi
  rw [h, Complex.arg_neg_one]


section Helpers

@[simp]
theorem andThen_ok {F σ α : Type} (u : Unit) (obj : σ) (rest : σ → Except (Error F) α) :
    andThen (Except.ok u, obj) rest = rest obj := rfl

@[simp]
theorem andThen_error {F σ α : Type} (e : Error F) (obj : σ)
    (rest : σ → Except (Error F) α) :
    andThen (Except.error e, obj) rest = Except.error e := rfl

variable {F : Type} [LinearOrderedField F]

theorem setRadius_of_pos (self : CircleBuilder F) {val : F} (h : 0 < val) :
    self.setRadius val = (.ok (), { self with radius := val }) := by
  simp [CircleBuilder.setRadius, not_le.mpr h]

theorem setRadius_of_nonpos (self : CircleBuilder F) {val : F} (h : val ≤ 0) :
    self.setRadius val =
      (.error (.invalid_argument "Circle radius must be positive, got: " val), self) := by
  simp [CircleBuilder.setRadius, h]

theorem setLength_of_pos (self : RectangleBuilder F) {val : F} (h : 0 < val) :
    self.setLength val = (.ok (), { self with length := val }) := by
  simp [RectangleBuilder.setLength, not_le.mpr h]

theorem setLength_of_nonpos (self : RectangleBuilder F) {val : F} (h : val ≤ 0) :
    self.setLength val =
      (.error (.invalid_argument "Rectangle length must be positive, got: " val), self) := by
  simp [RectangleBuilder.setLength, h]

theorem setBreadth_of_pos (self : RectangleBuilder F) {val : F} (h : 0 < val) :
    self.setBreadth val = (.ok (), { self with breadth := val }) := by
  simp [RectangleBuilder.setBreadth, not_le.mpr h]

theorem setBreadth_of_nonpos (self : RectangleBuilder F) {val : F} (h : val ≤ 0) :
    self.setBreadth val =
      (.error (.invalid_argument "Rectangle breadth must be positive, got: " val), self) := by
  simp [RectangleBuilder.setBreadth, h]

theorem setSideA_of_pos (self : TriangleBuilder F) {val : F} (h : 0 < val) :
    self.setSideA val = (.ok (), { self with a := val }) := by
  simp [TriangleBuilder.setSideA, not_le.mpr h]

theorem setSideA_of_nonpos (self : TriangleBuilder F) {val : F} (h : val ≤ 0) :
    self.setSideA val =
      (.error (.invalid_argument "Triangle side A must be positive, got: " val), self) := by
  simp [TriangleBuilder.setSideA, h]

theorem setSideB_of_pos (self : TriangleBuilder F) {val : F} (h : 0 < val) :
    self.setSideB val = (.ok (), { self with b := val }) := by
  simp [TriangleBuilder.setSideB, not_le.mpr h]

theorem setSideB_of_nonpos (self : TriangleBuilder F) {val : F} (h : val ≤ 0) :
    self.setSideB val =
      (.error (.invalid_argument "Triangle side B must be positive, got: " val), self) := by
  simp [TriangleBuilder.setSideB, h]

theorem setSideC_of_pos (self : TriangleBuilder F) {val : F} (h : 0 < val) :
    self.setSideC val = (.ok (), { self with c := val }) := by
  simp [TriangleBuilder.setSideC, not_le.mpr h]

theorem setSideC_of_nonpos (self : TriangleBuilder F) {val : F} (h : val ≤ 0) :
    self.setSideC val =
      (.error (.invalid_argument "Triangle side C must be positive, got: " val), self) := by
  simp [TriangleBuilder.setSideC, h]

/-- On positive arguments the factory returns the computed rectangle. -/
theorem createRectangle_of_pos {l b : F} (hl : 0 < l) (hb : 0 < b) :
    ShapeFactory.createRectangle l b =
      .ok (Shape.rectangle { length := l, breadth := b, area := l * b, perimeter := 2 * (l + b) })
      := by
  simp [ShapeFactory.createRectangle, setLength_of_pos _ hl, setBreadth_of_pos _ hb,
    RectangleBuilder.compute, RectangleBuilder.make]

theorem createRectangle_of_nonpos_length {l : F} (b : F) (hl : l ≤ 0) :
    ShapeFactory.createRectangle l b =
      .error (.invalid_argument "Rectangle length must be positive, got: " l) := by
  simp [ShapeFactory.createRectangle, setLength_of_nonpos _ hl]

theorem createRectangle_of_nonpos_breadth {l b : F} (hl : 0 < l) (hb : b ≤ 0) :
    ShapeFactory.createRectangle l b =
      .error (.invalid_argument "Rectangle breadth must be positive, got: " b) := by
  simp [ShapeFactory.createRectangle, setLength_of_pos _ hl, setBreadth_of_nonpos _ hb]

variable [FloatMath F]

theorem compute_of_violated (self : TriangleBuilder F)
    (h : self.a + self.b ≤ self.c ∨ self.a + self.c ≤ self.b ∨ self.b + self.c ≤ self.a) :
    self.compute =
      (.error (.domain_error "Triangle sides do not satisfy the triangle inequality"), self) := by
  simp [TriangleBuilder.compute, h]

theorem compute_of_valid (self : TriangleBuilder F)
    (h : ¬ (self.a + self.b ≤ self.c ∨ self.a + self.c ≤ self.b ∨ self.b + self.c ≤ self.a)) :
    self.compute =
      (.ok (), { self with
        area := FloatMath.sqrt ((self.a + self.b + self.c) / 2
          * ((self.a + self.b + self.c) / 2 - self.a)
          * ((self.a + self.b + self.c) / 2 - self.b)
          * ((self.a + self.b + self.c) / 2 - self.c))
        perimeter := self.a + self.b + self.c }) := by
  simp [TriangleBuilder.compute, h]

/-- The three setters of `createTriangle` all return on positive arguments, and
the factory then hands the object with sides `a`, `b`, `c` to `compute`. -/
theorem createTriangle_of_pos {a b c : F} (ha : 0 < a) (hb : 0 < b) (hc : 0 < c) :
    ShapeFactory.createTriangle a b c =
      andThen (TriangleBuilder.compute { a := a, b := b, c := c, area := 0, perimeter := 0 })
        fun obj => .ok (Shape.triangle obj) := by
  simp [ShapeFactory.createTriangle, TriangleBuilder.make, setSideA_of_pos, setSideB_of_pos,
    setSideC_of_pos, ha, hb, hc]

theorem createTriangle_of_nonpos_a {a : F} (b c : F) (ha : a ≤ 0) :
    ShapeFactory.createTriangle a b c =
      .error (.invalid_argument "Triangle side A must be positive, got: " a) := by
  simp [ShapeFactory.createTriangle, setSideA_of_nonpos _ ha]

theorem createTriangle_of_nonpos_b {a b : F} (c : F) (ha : 0 < a) (hb : b ≤ 0) :
    ShapeFactory.createTriangle a b c =
      .error (.invalid_argument "Triangle side B must be positive, got: " b) := by
  simp [ShapeFactory.createTriangle, setSideA_of_pos _ ha, setSideB_of_nonpos _ hb]

theorem createTriangle_of_nonpos_c {a b c : F} (ha : 0 < a) (hb : 0 < b) (hc : c ≤ 0) :
    ShapeFactory.createTriangle a b c =
      .error (.invalid_argument "Triangle side C must be positive, got: " c) := by
  simp [ShapeFactory.createTriangle, setSideA_of_pos _ ha, setSideB_of_pos _ hb,
    setSideC_of_nonpos _ hc]

/-- On positive sides that violate the strict triangle inequality the factory
lets the `std::domain_error` of `compute` through. -/
theorem createTriangle_of_violated {a b c : F} (ha : 0 < a) (hb : 0 < b) (hc : 0 < c)
    (h : a + b ≤ c ∨ a + c ≤ b ∨ b + c ≤ a) :
    ShapeFactory.createTriangle a b c =
      .error (.domain_error "Triangle sides do not satisfy the triangle inequality") := by
  rw [createTriangle_of_pos ha hb hc, compute_of_violated _ h]
  rfl

/-- On positive sides that satisfy the strict triangle inequality the factory
returns the computed triangle. -/
theorem createTriangle_of_valid {a b c : F} (ha : 0 < a) (hb : 0 < b) (hc : 0 < c)
    (h : ¬ (a + b ≤ c ∨ a + c ≤ b ∨ b + c ≤ a)) :
    ShapeFactory.createTriangle a b c =
      .ok (Shape.triangle
        { a := a
          b := b
          c := c
          area := FloatMath.sqrt ((a + b + c) / 2 * ((a + b + c) / 2 - a)
            * ((a + b + c) / 2 - b) * ((a + b + c) / 2 - c))
          perimeter := a + b + c }) := by
  rw [createTriangle_of_pos ha hb hc, compute_of_valid _ h]
  rfl

theorem createCircle_of_nonpos {r : F} (hr : r ≤ 0) :
    ShapeFactory.createCircle r =
      .error (.invalid_argument "Circle radius must be positive, got: " r) := by
  simp [ShapeFactory.createCircle, setRadius_of_nonpos _ hr]

/-- On a positive radius the factory returns the computed circle. -/
theorem createCircle_of_pos {r : F} (hr : 0 < r) :
    ShapeFactory.createCircle r =
      .ok (Shape.circle { radius := r, area := PI * r * r, perimeter := 2 * PI * r }) := by
  simp [ShapeFactory.createCircle, setRadius_of_pos _ hr, CircleBuilder.compute,
    CircleBuilder.make]

end Helpers

/-! ### Claims -/

section Claims

open ShapeFactory

variable {F : Type} [LinearOrderedField F]

/-- C1: for positive `a`, `b`, `c` satisfying the strict triangle inequality,
`createTriangle a b c` succeeds; it is the object obtained from a fresh
`TriangleBuilder` by `setSideA`, `setSideB`, `setSideC` (each returning
normally) and `compute`; its perimeter is `a + b + c` and its area is Heron's
formula, over the reals. -/
theorem createTriangle_heron (a b c : ℝ) (ha : 0 < a) (hb : 0 < b) (hc : 0 < c)
    (hab : a + b > c) (hac : a + c > b) (hbc : b + c > a) :
    ∃ obj : TriangleBuilder ℝ,
      createTriangle a b c = .ok (Shape.triangle obj) ∧
      (TriangleBuilder.make.setSideA a).1 = .ok () ∧
      ((TriangleBuilder.make.setSideA a).2.setSideB b).1 = .ok () ∧
      (((TriangleBuilder.make.setSideA a).2.setSideB b).2.setSideC c).1 = .ok () ∧
      (((TriangleBuilder.make.setSideA a).2.setSideB b).2.setSideC c).2.compute = (.ok (), obj) ∧
      (Shape.triangle obj).getPerimeter = a + b + c ∧
      (Shape.triangle obj).getArea = heron a b c := by
  have h : ¬ (a + b ≤ c ∨ a + c ≤ b ∨ b + c ≤ a) := by
    simp only [not_or, not_le]
    exact ⟨hab, hac, hbc⟩
  refine ⟨{ a := a, b := b, c := c, area := heron a b c, perimeter := a + b + c },
    ?_, ?_, ?_, ?_, ?_, rfl, rfl⟩
  · rw [createTriangle_of_pos ha hb hc, compute_of_valid _ h]
    rfl
  · rw [setSideA_of_pos _ ha]
  · rw [setSideA_of_pos _ ha, setSideB_of_pos _ hb]
  · rw [setSideA_of_pos _ ha, setSideB_of_pos _ hb, setSideC_of_pos _ hc]
  · rw [setSideA_of_pos _ ha, setSideB_of_pos _ hb, setSideC_of_pos _ hc]
    exact compute_of_valid _ h

/-- Witness of C1 at the sides 2, 3, 4. -/
theorem createTriangle_heron_witness :
    ((0 : ℝ) < 2 ∧ (0 : ℝ) < 3 ∧ (0 : ℝ) < 4 ∧ (2 : ℝ) + 3 > 4 ∧ (2 : ℝ) + 4 > 3
      ∧ (3 : ℝ) + 4 > 2) ∧
    ∃ obj : TriangleBuilder ℝ,
      createTriangle 2 3 4 = .ok (Shape.triangle obj) ∧
      (TriangleBuilder.make.setSideA (2 : ℝ)).1 = .ok () ∧
      ((TriangleBuilder.make.setSideA (2 : ℝ)).2.setSideB 3).1 = .ok () ∧
      (((TriangleBuilder.make.setSideA (2 : ℝ)).2.setSideB 3).2.setSideC 4).1 = .ok () ∧
      (((TriangleBuilder.make.setSideA (2 : ℝ)).2.setSideB 3).2.setSideC 4).2.compute
        = (.ok (), obj) ∧
      (Shape.triangle obj).getPerimeter = 2 + 3 + 4 ∧
      (Shape.triangle obj).getArea = heron 2 3 4 :=
  ⟨by norm_num, createTriangle_heron 2 3 4 (by norm_num) (by norm_num) (by norm_num)
    (by norm_num) (by norm_num) (by norm_num)⟩

/-- C2: `TriangleBuilder::compute` throws `InvalidGeometry` exactly when the
stored sides violate the strict triangle inequality (`a+b<=c` or `a+c<=b` or
`b+c<=a`), and returns normally otherwise; the stored sides 1, 2, 3 and
1, 1, 5 both fail; no setter and no other `compute` ever throws
`InvalidGeometry`. -/
theorem invalidGeometry_only_from_triangle_compute [FloatMath F] :
    (∀ t : TriangleBuilder F, failsInvalidGeometry t.compute.1 = true ↔
      (t.a + t.b ≤ t.c ∨ t.a + t.c ≤ t.b ∨ t.b + t.c ≤ t.a)) ∧
    (∀ t : TriangleBuilder F, succeeds t.compute.1 = true ↔
      ¬ (t.a + t.b ≤ t.c ∨ t.a + t.c ≤ t.b ∨ t.b + t.c ≤ t.a)) ∧
    (∀ ar p : F, failsInvalidGeometry (TriangleBuilder.compute
      { a := 1, b := 2, c := 3, area := ar, perimeter := p }).1 = true) ∧
    (∀ ar p : F, failsInvalidGeometry (TriangleBuilder.compute
      { a := 1, b := 1, c := 5, area := ar, perimeter := p }).1 = true) ∧
    (∀ (t : TriangleBuilder F) (v : F), failsInvalidGeometry (t.setSideA v).1 = false) ∧
    (∀ (t : TriangleBuilder F) (v : F), failsInvalidGeometry (t.setSideB v).1 = false) ∧
    (∀ (t : TriangleBuilder F) (v : F), failsInvalidGeometry (t.setSideC v).1 = false) ∧
    (∀ (r : RectangleBuilder F) (v : F), failsInvalidGeometry (r.setLength v).1 = false) ∧
    (∀ (r : RectangleBuilder F) (v : F), failsInvalidGeometry (r.setBreadth v).1 = false) ∧
    (∀ r : RectangleBuilder F, failsInvalidGeometry r.compute.1 = false) ∧
    (∀ (k : CircleBuilder F) (v : F), failsInvalidGeometry (k.setRadius v).1 = false) ∧
    (∀ k : CircleBuilder F, failsInvalidGeometry k.compute.1 = false) := by
  refine ⟨?_, ?_, ?_, ?_, ?_, ?_, ?_, ?_, ?_, ?_, ?_, ?_⟩
  · intro t
    by_cases h : t.a + t.b ≤ t.c ∨ t.a + t.c ≤ t.b ∨ t.b + t.c ≤ t.a
    · simp [compute_of_violated t h, h, failsInvalidGeometry, Error.isInvalidGeometry]
    · simp [compute_of_valid t h, h, failsInvalidGeometry]
  · intro t
    by_cases h : t.a + t.b ≤ t.c ∨ t.a + t.c ≤ t.b ∨ t.b + t.c ≤ t.a
    · simp [compute_of_violated t h, h, succeeds]
    · simp [compute_of_valid t h, h, succeeds]
  · intro ar p
    rw [compute_of_violated _ (Or.inl (by norm_num))]
    rfl
  · intro ar p
    rw [compute_of_violated _ (Or.inl (by norm_num))]
    rfl
  · intro t v
    rcases le_or_lt v 0 with h | h
    · rw [setSideA_of_nonpos t h]; rfl
    · rw [setSideA_of_pos t h]; rfl
  · intro t v
    rcases le_or_lt v 0 with h | h
    · rw [setSideB_of_nonpos t h]; rfl
    · rw [setSideB_of_pos t h]; rfl
  · intro t v
    rcases le_or_lt v 0 with h | h
    · rw [setSideC_of_nonpos t h]; rfl
    · rw [setSideC_of_pos t h]; rfl
  · intro r v
    rcases le_or_lt v 0 with h | h
    · rw [setLength_of_nonpos r h]; rfl
    · rw [setLength_of_pos r h]; rfl
  · intro r v
    rcases le_or_lt v 0 with h | h
    · rw [setBreadth_of_nonpos r h]; rfl
    · rw [setBreadth_of_pos r h]; rfl
  · intro r
    rfl
  · intro k v
    rcases le_or_lt v 0 with h | h
    · rw [setRadius_of_nonpos k h]; rfl
    · rw [setRadius_of_pos k h]; rfl
  · intro k
    rfl

/-- C3: each of the six setters throws `InvalidParameter` exactly when the
supplied value is `<= 0` (zero included); for a value `> 0` it returns
normally and the field holds that value afterwards. -/
theorem setter_fails_iff_nonpos (val : F) :
    (∀ k : CircleBuilder F,
      (failsInvalidParameter (k.setRadius val).1 = true ↔ val ≤ 0) ∧
      (0 < val → (k.setRadius val).1 = .ok () ∧ (k.setRadius val).2.radius = val)) ∧
    (∀ r : RectangleBuilder F,
      (failsInvalidParameter (r.setLength val).1 = true ↔ val ≤ 0) ∧
      (0 < val → (r.setLength val).1 = .ok () ∧ (r.setLength val).2.length = val)) ∧
    (∀ r : RectangleBuilder F,
      (failsInvalidParameter (r.setBreadth val).1 = true ↔ val ≤ 0) ∧
      (0 < val → (r.setBreadth val).1 = .ok () ∧ (r.setBreadth val).2.breadth = val)) ∧
    (∀ t : TriangleBuilder F,
      (failsInvalidParameter (t.setSideA val).1 = true ↔ val ≤ 0) ∧
      (0 < val → (t.setSideA val).1 = .ok () ∧ (t.setSideA val).2.a = val)) ∧
    (∀ t : TriangleBuilder F,
      (failsInvalidParameter (t.setSideB val).1 = true ↔ val ≤ 0) ∧
      (0 < val → (t.setSideB val).1 = .ok () ∧ (t.setSideB val).2.b = val)) ∧
    (∀ t : TriangleBuilder F,
      (failsInvalidParameter (t.setSideC val).1 = true ↔ val ≤ 0) ∧
      (0 < val → (t.setSideC val).1 = .ok () ∧ (t.setSideC val).2.c = val)) := by
  rcases le_or_lt val 0 with h | h
  · have h' : ¬ 0 < val := not_lt.mpr h
    refine ⟨?_, ?_, ?_, ?_, ?_, ?_⟩ <;> intro x
    · simp [setRadius_of_nonpos x h, h, h', failsInvalidParameter,
        Error.isInvalidParameter]
    · simp [setLength_of_nonpos x h, h, h', failsInvalidParameter,
        Error.isInvalidParameter]
    · simp [setBreadth_of_nonpos x h, h, h', failsInvalidParameter,
        Error.isInvalidParameter]
    · simp [setSideA_of_nonpos x h, h, h', failsInvalidParameter,
        Error.isInvalidParameter]
    · simp [setSideB_of_nonpos x h, h, h', failsInvalidParameter,
        Error.isInvalidParameter]
    · simp [setSideC_of_nonpos x h, h, h', failsInvalidParameter,
        Error.isInvalidParameter]
  · have h' : ¬ val ≤ 0 := not_le.mpr h
    refine ⟨?_, ?_, ?_, ?_, ?_, ?_⟩ <;> intro x
    · simp [setRadius_of_pos x h, h', failsInvalidParameter]
    · simp [setLength_of_pos x h, h', failsInvalidParameter]
    · simp [setBreadth_of_pos x h, h', failsInvalidParameter]
    · simp [setSideA_of_pos x h, h', failsInvalidParameter]
    · simp [setSideB_of_pos x h, h', failsInvalidParameter]
    · simp [setSideC_of_pos x h, h', failsInvalidParameter]

/-- Witness of C3: on fresh builders over the rationals, the value 2 is
stored by every setter. -/
theorem setter_fails_iff_nonpos_witness :
    (0 : ℚ) < 2 ∧
    ((CircleBuilder.make.setRadius (2 : ℚ)).1 = .ok () ∧
      (CircleBuilder.make.setRadius (2 : ℚ)).2.radius = 2) ∧
    ((RectangleBuilder.make.setLength (2 : ℚ)).1 = .ok () ∧
      (RectangleBuilder.make.setLength (2 : ℚ)).2.length = 2) ∧
    ((RectangleBuilder.make.setBreadth (2 : ℚ)).1 = .ok () ∧
      (RectangleBuilder.make.setBreadth (2 : ℚ)).2.breadth = 2) ∧
    ((TriangleBuilder.make.setSideA (2 : ℚ)).1 = .ok () ∧
      (TriangleBuilder.make.setSideA (2 : ℚ)).2.a = 2) ∧
    ((TriangleBuilder.make.setSideB (2 : ℚ)).1 = .ok () ∧
      (TriangleBuilder.make.setSideB (2 : ℚ)).2.b = 2) ∧
    ((TriangleBuilder.make.setSideC (2 : ℚ)).1 = .ok () ∧
      (TriangleBuilder.make.setSideC (2 : ℚ)).2.c = 2) :=
  have h : (0 : ℚ) < 2 := by norm_num
  have w := setter_fails_iff_nonpos (2 : ℚ)
  ⟨h, (w.1 _).2 h, (w.2.1 _).2 h, (w.2.2.1 _).2 h, (w.2.2.2.1 _).2 h,
    (w.2.2.2.2.1 _).2 h, (w.2.2.2.2.2 _).2 h⟩

/-- C4: for `r > 0`, `createCircle r` succeeds; it is the object obtained from
a fresh `CircleBuilder` by `setRadius r` and `compute`; its area is `π r²` and
its perimeter is `2 π r`, over the reals. -/
theorem createCircle_area_perimeter (r : ℝ) (hr : 0 < r) :
    ∃ obj : CircleBuilder ℝ,
      createCircle r = .ok (Shape.circle obj) ∧
      (CircleBuilder.make.setRadius r).1 = .ok () ∧
      (CircleBuilder.make.setRadius r).2.compute = (.ok (), obj) ∧
      (Shape.circle obj).getArea = Real.pi * r ^ 2 ∧
      (Shape.circle obj).getPerimeter = 2 * Real.pi * r := by
  refine ⟨{ radius := r, area := Real.pi * r * r, perimeter := 2 * Real.pi * r },
    ?_, ?_, ?_, ?_, rfl⟩
  · simp [createCircle, setRadius_of_pos _ hr, CircleBuilder.compute, CircleBuilder.make,
      PI_real]
  · rw [setRadius_of_pos _ hr]
  · simp [setRadius_of_pos _ hr, CircleBuilder.compute, CircleBuilder.make, PI_real]
  · show Real.pi * r * r = Real.pi * r ^ 2
    ring

/-- Witness of C4 at the radius 2. -/
theorem createCircle_area_perimeter_witness :
    (0 : ℝ) < 2 ∧
    ∃ obj : CircleBuilder ℝ,
      createCircle 2 = .ok (Shape.circle obj) ∧
      (CircleBuilder.make.setRadius (2 : ℝ)).1 = .ok () ∧
      (CircleBuilder.make.setRadius (2 : ℝ)).2.compute = (.ok (), obj) ∧
      (Shape.circle obj).getArea = Real.pi * 2 ^ 2 ∧
      (Shape.circle obj).getPerimeter = 2 * Real.pi * 2 :=
  ⟨by norm_num, createCircle_area_perimeter 2 (by norm_num)⟩

/-- C5: for `l > 0` and `b > 0`, `createRectangle l b` succeeds; it is the
object obtained from a fresh `RectangleBuilder` by `setLength l`,
`setBreadth b` and `compute`; its area is `l * b` and its perimeter is
`2 * (l + b)`. -/
theorem createRectangle_area_perimeter (l b : F) (hl : 0 < l) (hb : 0 < b) :
    ∃ obj : RectangleBuilder F,
      createRectangle l b = .ok (Shape.rectangle obj) ∧
      (RectangleBuilder.make.setLength l).1 = .ok () ∧
      ((RectangleBuilder.make.setLength l).2.setBreadth b).1 = .ok () ∧
      ((RectangleBuilder.make.setLength l).2.setBreadth b).2.compute = (.ok (), obj) ∧
      (Shape.rectangle obj).getArea = l * b ∧
      (Shape.rectangle obj).getPerimeter = 2 * (l + b) := by
  refine ⟨{ length := l, breadth := b, area := l * b, perimeter := 2 * (l + b) },
    ?_, ?_, ?_, ?_, rfl, rfl⟩
  · simp [createRectangle, setLength_of_pos _ hl, setBreadth_of_pos _ hb,
      RectangleBuilder.compute, RectangleBuilder.make]
  · rw [setLength_of_pos _ hl]
  · rw [setLength_of_pos _ hl, setBreadth_of_pos _ hb]
  · simp [setLength_of_pos _ hl, setBreadth_of_pos _ hb, RectangleBuilder.compute,
      RectangleBuilder.make]

/-- Witness of C5 at length 3 and breadth 7 over the rationals. -/
theorem createRectangle_area_perimeter_witness :
    ((0 : ℚ) < 3 ∧ (0 : ℚ) < 7) ∧
    ∃ obj : RectangleBuilder ℚ,
      createRectangle 3 7 = .ok (Shape.rectangle obj) ∧
      (RectangleBuilder.make.setLength (3 : ℚ)).1 = .ok () ∧
      ((RectangleBuilder.make.setLength (3 : ℚ)).2.setBreadth 7).1 = .ok () ∧
      ((RectangleBuilder.make.setLength (3 : ℚ)).2.setBreadth 7).2.compute = (.ok (), obj) ∧
      (Shape.rectangle obj).getArea = 3 * 7 ∧
      (Shape.rectangle obj).getPerimeter = 2 * (3 + 7) :=
  ⟨by norm_num, createRectangle_area_perimeter 3 7 (by norm_num) (by norm_num)⟩

/-- C6: for `s > 0`, `createEquilateralTriangle s` succeeds (it throws
nothing, in particular not `InvalidGeometry`), with perimeter `3 s` and area
`(√3 / 4) s²`, over the reals. -/
theorem createEquilateralTriangle_area_perimeter (s : ℝ) (hs : 0 < s) :
    ∃ shape : Shape ℝ,
      createEquilateralTriangle s = .ok shape ∧
      shape.getPerimeter = 3 * s ∧
      shape.getArea = Real.sqrt 3 / 4 * s ^ 2 := by
  have h : ¬ (s + s ≤ s ∨ s + s ≤ s ∨ s + s ≤ s) := by
    simp only [or_self, not_le]
    linarith
  refine ⟨_, createTriangle_of_valid hs hs hs h, ?_, ?_⟩
  · show s + s + s = 3 * s
    ring
  · show Real.sqrt ((s + s + s) / 2 * ((s + s + s) / 2 - s) * ((s + s + s) / 2 - s)
      * ((s + s + s) / 2 - s)) = Real.sqrt 3 / 4 * s ^ 2
    have h3 : Real.sqrt 3 ^ 2 = 3 := Real.sq_sqrt (by norm_num)
    have hrad : (s + s + s) / 2 * ((s + s + s) / 2 - s) * ((s + s + s) / 2 - s)
        * ((s + s + s) / 2 - s) = (Real.sqrt 3 / 4 * s ^ 2) ^ 2 := by
      have : (Real.sqrt 3 / 4 * s ^ 2) ^ 2 = Real.sqrt 3 ^ 2 / 16 * s ^ 4 := by ring
      rw [this, h3]
      ring
    rw [hrad]
    exact Real.sqrt_sq (by positivity)

/-- Witness of C6 at the side 2. -/
theorem createEquilateralTriangle_area_perimeter_witness :
    (0 : ℝ) < 2 ∧
    ∃ shape : Shape ℝ,
      createEquilateralTriangle 2 = .ok shape ∧
      shape.getPerimeter = 3 * 2 ∧
      shape.getArea = Real.sqrt 3 / 4 * 2 ^ 2 :=
  ⟨by norm_num, createEquilateralTriangle_area_perimeter 2 (by norm_num)⟩

/-- C7: for every `side`, `createSquare side` has the same outcome (the same
exception or the same shape) as `createRectangle side side`; for `side > 0` it
succeeds with area `side²` and perimeter `4 side`. -/
theorem createSquare_eq_createRectangle (side : F) :
    createSquare side = createRectangle side side ∧
    (0 < side → ∃ shape : Shape F,
      createSquare side = .ok shape ∧
      shape.getArea = side ^ 2 ∧
      shape.getPerimeter = 4 * side) := by
  refine ⟨rfl, fun h => ?_⟩
  refine ⟨_, createRectangle_of_pos h h, ?_, ?_⟩
  · show side * side = side ^ 2
    ring
  · show 2 * (side + side) = 4 * side
    ring

/-- Witness of C7 at the side 5 over the rationals. -/
theorem createSquare_eq_createRectangle_witness :
    (0 : ℚ) < 5 ∧
    ∃ shape : Shape ℚ,
      createSquare 5 = .ok shape ∧
      shape.getArea = 5 ^ 2 ∧
      shape.getPerimeter = 4 * 5 :=
  ⟨by norm_num, (createSquare_eq_createRectangle (5 : ℚ)).2 (by norm_num)⟩

/-- C8 as stated fails in the code's own `double` arithmetic: for `e = 2^53`
and `o = 1` (so `e > 0` and `0 < o < 2 e`) the sum `a + c` rounds to
`2^53 <= b`, and `createIsoscalesTriangle` throws `InvalidGeometry` instead of
succeeding. -/
theorem createIsoscalesTriangle_double_counterexample :
    ¬ (Dbl.fin 1 53 ≤ 0) ∧ ¬ (Dbl.fin 1 0 ≤ 0) ∧ ¬ ((2 : Dbl) * Dbl.fin 1 53 ≤ Dbl.fin 1 0) ∧
    Dbl.fin 1 53 + Dbl.fin 1 0 = Dbl.fin 1 53 ∧
    failsInvalidGeometry (createIsoscalesTriangle (Dbl.fin 1 53) (Dbl.fin 1 0)) = true ∧
    succeeds (createIsoscalesTriangle (Dbl.fin 1 53) (Dbl.fin 1 0)) = false := by
  decide

/-- C8, amended: for every `e` and `o`, `createIsoscalesTriangle e o` has the
same outcome as `createTriangle e e o` (in real and in binary64 arithmetic
alike); with arithmetic read over the reals, for `e > 0` and `0 < o < 2 e` it
succeeds with perimeter `2 e + o` and area Heron's formula on `(e, e, o)`. -/
theorem createIsoscalesTriangle_eq_createTriangle (e o : ℝ) (x y : Dbl) :
    createIsoscalesTriangle e o = createTriangle e e o ∧
    createIsoscalesTriangle x y = createTriangle x x y ∧
    (0 < e → 0 < o → o < 2 * e → ∃ shape : Shape ℝ,
      createIsoscalesTriangle e o = .ok shape ∧
      shape.getPerimeter = 2 * e + o ∧
      shape.getArea = heron e e o) := by
  refine ⟨rfl, rfl, fun he ho hlt => ?_⟩
  have h : ¬ (e + e ≤ o ∨ e + o ≤ e ∨ e + o ≤ e) := by
    simp only [or_self, not_or, not_le]
    constructor <;> linarith
  refine ⟨_, createTriangle_of_valid he he ho h, ?_, rfl⟩
  show e + e + o = 2 * e + o
  ring

/-- Witness of C8 (amended) at the equal side 6 and the other side 4. -/
theorem createIsoscalesTriangle_eq_createTriangle_witness :
    ((0 : ℝ) < 6 ∧ (0 : ℝ) < 4 ∧ (4 : ℝ) < 2 * 6) ∧
    ∃ shape : Shape ℝ,
      createIsoscalesTriangle 6 4 = .ok shape ∧
      shape.getPerimeter = 2 * 6 + 4 ∧
      shape.getArea = heron 6 6 4 :=
  ⟨by norm_num, (createIsoscalesTriangle_eq_createTriangle 6 4 0 0).2.2
    (by norm_num) (by norm_num) (by norm_num)⟩

/-- C9: the factory adds no validation and no recovery.  `createTriangle a b c`
throws `InvalidParameter` iff some argument is `<= 0`, the exception being that
of the first non-positive argument in the order A, B, C (whatever the triangle
inequality says); it throws `InvalidGeometry` iff all three are `> 0` and the
strict triangle inequality is violated; otherwise it succeeds.  `createCircle r`
fails iff `r <= 0`, `createRectangle l w` fails iff `l <= 0` or `w <= 0`, and a
failed operation produces no shape. -/
theorem factory_failure_cases [FloatMath F] (a b c r l w : F) :
    (failsInvalidParameter (createTriangle a b c) = true ↔ a ≤ 0 ∨ b ≤ 0 ∨ c ≤ 0) ∧
    (a ≤ 0 → createTriangle a b c =
      .error (.invalid_argument "Triangle side A must be positive, got: " a)) ∧
    (0 < a → b ≤ 0 → createTriangle a b c =
      .error (.invalid_argument "Triangle side B must be positive, got: " b)) ∧
    (0 < a → 0 < b → c ≤ 0 → createTriangle a b c =
      .error (.invalid_argument "Triangle side C must be positive, got: " c)) ∧
    (failsInvalidGeometry (createTriangle a b c) = true ↔
      0 < a ∧ 0 < b ∧ 0 < c ∧ (a + b ≤ c ∨ a + c ≤ b ∨ b + c ≤ a)) ∧
    (succeeds (createTriangle a b c) = true ↔
      0 < a ∧ 0 < b ∧ 0 < c ∧ ¬ (a + b ≤ c ∨ a + c ≤ b ∨ b + c ≤ a)) ∧
    (succeeds (createCircle r) = false ↔ r ≤ 0) ∧
    (failsInvalidParameter (createCircle r) = true ↔ r ≤ 0) ∧
    (succeeds (createRectangle l w) = false ↔ l ≤ 0 ∨ w ≤ 0) ∧
    (failsInvalidParameter (createRectangle l w) = true ↔ l ≤ 0 ∨ w ≤ 0) ∧
    (succeeds (createTriangle a b c) = false → (createTriangle a b c).toOption = none) ∧
    (succeeds (createCircle r) = false → (createCircle r).toOption = none) ∧
    (succeeds (createRectangle l w) = false → (createRectangle l w).toOption = none) := by
  have tri : (failsInvalidParameter (createTriangle a b c) = true ↔ a ≤ 0 ∨ b ≤ 0 ∨ c ≤ 0) ∧
      (failsInvalidGeometry (createTriangle a b c) = true ↔
        0 < a ∧ 0 < b ∧ 0 < c ∧ (a + b ≤ c ∨ a + c ≤ b ∨ b + c ≤ a)) ∧
      (succeeds (createTriangle a b c) = true ↔
        0 < a ∧ 0 < b ∧ 0 < c ∧ ¬ (a + b ≤ c ∨ a + c ≤ b ∨ b + c ≤ a)) := by
    rcases le_or_lt a 0 with ha | ha
    · simp [createTriangle_of_nonpos_a b c ha, failsInvalidParameter, failsInvalidGeometry,
        succeeds, Error.isInvalidParameter, Error.isInvalidGeometry, ha, not_lt.mpr ha]
    rcases le_or_lt b 0 with hb | hb
    · simp [createTriangle_of_nonpos_b c ha hb, failsInvalidParameter, failsInvalidGeometry,
        succeeds, Error.isInvalidParameter, Error.isInvalidGeometry, hb, not_lt.mpr hb]
    rcases le_or_lt c 0 with hc | hc
    · simp [createTriangle_of_nonpos_c ha hb hc, failsInvalidParameter, failsInvalidGeometry,
        succeeds, Error.isInvalidParameter, Error.isInvalidGeometry, hc, not_lt.mpr hc]
    by_cases h : a + b ≤ c ∨ a + c ≤ b ∨ b + c ≤ a
    · simp [createTriangle_of_violated ha hb hc h, failsInvalidParameter, failsInvalidGeometry,
        succeeds, Error.isInvalidParameter, Error.isInvalidGeometry, ha, hb, hc, h,
        not_le.mpr ha, not_le.mpr hb, not_le.mpr hc]
    · simp [createTriangle_of_valid ha hb hc h, failsInvalidParameter, failsInvalidGeometry,
        succeeds, ha, hb, hc, h, not_le.mpr ha, not_le.mpr hb, not_le.mpr hc]
  have circ : (succeeds (createCircle r) = false ↔ r ≤ 0) ∧
      (failsInvalidParameter (createCircle r) = true ↔ r ≤ 0) := by
    rcases le_or_lt r 0 with hr | hr
    · simp [createCircle_of_nonpos hr, succeeds, failsInvalidParameter,
        Error.isInvalidParameter, hr]
    · simp [createCircle_of_pos hr, succeeds, failsInvalidParameter, not_le.mpr hr]
  have rect : (succeeds (createRectangle l w) = false ↔ l ≤ 0 ∨ w ≤ 0) ∧
      (failsInvalidParameter (createRectangle l w) = true ↔ l ≤ 0 ∨ w ≤ 0) := by
    rcases le_or_lt l 0 with hl | hl
    · simp [createRectangle_of_nonpos_length w hl, succeeds, failsInvalidParameter,
        Error.isInvalidParameter, hl]
    rcases le_or_lt w 0 with hw | hw
    · simp [createRectangle_of_nonpos_breadth hl hw, succeeds, failsInvalidParameter,
        Error.isInvalidParameter, hw]
    · simp [createRectangle_of_pos hl hw, succeeds, failsInvalidParameter, not_le.mpr hl,
        not_le.mpr hw]
  have noShape : ∀ x : Except (Error F) (Shape F), succeeds x = false → x.toOption = none := by
    intro x hx
    cases x with
    | error e => rfl
    | ok s => simp [succeeds] at hx
  exact ⟨tri.1, createTriangle_of_nonpos_a b c, fun ha hb => createTriangle_of_nonpos_b c ha hb,
    fun ha hb hc => createTriangle_of_nonpos_c ha hb hc, tri.2.1, tri.2.2, circ.1, circ.2,
    rect.1, rect.2, noShape _, noShape _, noShape _⟩

/-- Witness of C9: with sides -1, 1, 5 (the first is non-positive and the
triangle inequality fails too) the exception is that of side A. -/
theorem factory_failure_cases_witness :
    (-1 : ℝ) ≤ 0 ∧
    createTriangle (-1 : ℝ) 1 5 =
      .error (.invalid_argument "Triangle side A must be positive, got: " (-1)) :=
  ⟨by norm_num, (factory_failure_cases (-1 : ℝ) 1 5 1 1 1).2.1 (by norm_num)⟩

/-- C10: the end-to-end scenario of `main`, over the reals.  `createCircle 3.5`
gives area `12.25 π` and perimeter `7 π`, which round to 38.4845 and 21.9911 at
four decimals; `createRectangle 4.0 2.5` gives area 10 and perimeter 13;
`createTriangle 3.0 4.0 5.0` gives area 6 and perimeter 12. -/
theorem main_scenario :
    (∃ shape : Shape ℝ, createCircle (3.5 : ℝ) = .ok shape ∧
      shape.getArea = 12.25 * Real.pi ∧ shape.getPerimeter = 7 * Real.pi ∧
      38.48445 ≤ shape.getArea ∧ shape.getArea < 38.48455 ∧
      21.99105 ≤ shape.getPerimeter ∧ shape.getPerimeter < 21.99115) ∧
    (∃ shape : Shape ℝ, createRectangle (4.0 : ℝ) 2.5 = .ok shape ∧
      shape.getArea = 10 ∧ shape.getPerimeter = 13) ∧
    (∃ shape : Shape ℝ, createTriangle (3.0 : ℝ) 4.0 5.0 = .ok shape ∧
      shape.getArea = 6 ∧ shape.getPerimeter = 12) := by
  refine ⟨⟨_, createCircle_of_pos (by norm_num), ?_, ?_, ?_, ?_, ?_, ?_⟩,
    ⟨_, createRectangle_of_pos (by norm_num) (by norm_num), ?_, ?_⟩,
    ⟨_, createTriangle_of_valid (by norm_num) (by norm_num) (by norm_num) (by norm_num),
      ?_, ?_⟩⟩
  · show (PI : ℝ) * 3.5 * 3.5 = 12.25 * Real.pi
    rw [PI_real]; ring
  · show 2 * (PI : ℝ) * 3.5 = 7 * Real.pi
    rw [PI_real]; ring
  · show (38.48445 : ℝ) ≤ (PI : ℝ) * 3.5 * 3.5
    rw [PI_real]
    have := Real.pi_gt_d6
    norm_num at this ⊢
    linarith
  · show (PI : ℝ) * 3.5 * 3.5 < 38.48455
    rw [PI_real]
    have := Real.pi_lt_d6
    norm_num at this ⊢
    linarith
  · show (21.99105 : ℝ) ≤ 2 * (PI : ℝ) * 3.5
    rw [PI_real]
    have := Real.pi_gt_d6
    norm_num at this ⊢
    linarith
  · show 2 * (PI : ℝ) * 3.5 < 21.99115
    rw [PI_real]
    have := Real.pi_lt_d20
    norm_num at this ⊢
    linarith
  · show (4.0 : ℝ) * 2.5 = 10
    norm_num
  · show 2 * ((4.0 : ℝ) + 2.5) = 13
    norm_num
  · show Real.sqrt (((3.0 : ℝ) + 4.0 + 5.0) / 2 * ((3.0 + 4.0 + 5.0) / 2 - 3.0)
      * ((3.0 + 4.0 + 5.0) / 2 - 4.0) * ((3.0 + 4.0 + 5.0) / 2 - 5.0)) = 6
    have h : ((3.0 : ℝ) + 4.0 + 5.0) / 2 * ((3.0 + 4.0 + 5.0) / 2 - 3.0)
      * ((3.0 + 4.0 + 5.0) / 2 - 4.0) * ((3.0 + 4.0 + 5.0) / 2 - 5.0) = 6 ^ 2 := by norm_num
    rw [h]
    exact Real.sqrt_sq (by norm_num)
  · show (3.0 : ℝ) + 4.0 + 5.0 = 12
    norm_num

end Claims

/-! ### Helper lemmas on call sequences and on the real-number reading -/

section RealHelpers

/-- Under the strict triangle inequality the Heron radicand is positive. -/
theorem heron_radicand_pos {a b c : ℝ} (hab : c < a + b) (hac : b < a + c)
    (hbc : a < b + c) :
    0 < (a + b + c) / 2 * ((a + b + c) / 2 - a) * ((a + b + c) / 2 - b)
      * ((a + b + c) / 2 - c) := by
  have h1 : 0 < (a + b + c) / 2 := by linarith
  have h2 : 0 < (a + b + c) / 2 - a := by linarith
  have h3 : 0 < (a + b + c) / 2 - b := by linarith
  have h4 : 0 < (a + b + c) / 2 - c := by linarith
  exact mul_pos (mul_pos (mul_pos h1 h2) h3) h4

/-- A `compute` of `TriangleBuilder` that passes the check stores a positive
area and a positive perimeter. -/
theorem compute_valid_pos (t : TriangleBuilder ℝ)
    (h : ¬ (t.a + t.b ≤ t.c ∨ t.a + t.c ≤ t.b ∨ t.b + t.c ≤ t.a)) :
    0 < t.compute.2.area ∧ 0 < t.compute.2.perimeter := by
  rw [compute_of_valid t h]
  simp only [not_or, not_le] at h
  obtain ⟨hab, hac, hbc⟩ := h
  refine ⟨Real.sqrt_pos.mpr (heron_radicand_pos hab hac hbc), ?_⟩
  show 0 < t.a + t.b + t.c
  linarith

theorem circle_foldl_inv (cs : List (CircleCall ℝ)) :
    ∀ h : Tracked (CircleBuilder ℝ),
      ((h.lastCompute = none → h.obj.area = 0 ∧ h.obj.perimeter = 0) ∧
        (∀ pre, h.lastCompute = some pre →
          h.obj.area = Real.pi * pre.radius * pre.radius ∧
          h.obj.perimeter = 2 * Real.pi * pre.radius)) →
      (((cs.foldl CircleCall.step h).lastCompute = none →
          (cs.foldl CircleCall.step h).obj.area = 0 ∧
          (cs.foldl CircleCall.step h).obj.perimeter = 0) ∧
        (∀ pre, (cs.foldl CircleCall.step h).lastCompute = some pre →
          (cs.foldl CircleCall.step h).obj.area = Real.pi * pre.radius * pre.radius ∧
          (cs.foldl CircleCall.step h).obj.perimeter = 2 * Real.pi * pre.radius)) := by
  induction cs with
  | nil => intro h hh; exact hh
  | cons c cs ih =>
    intro h hh
    rw [List.foldl_cons]
    apply ih
    cases c with
    | setRadius val =>
      rcases le_or_lt val 0 with hv | hv
      · simpa [CircleCall.step, setRadius_of_nonpos _ hv] using hh
      · simpa [CircleCall.step, setRadius_of_pos _ hv] using hh
    | compute =>
      simp [CircleCall.step, CircleBuilder.compute, succeeds, PI_real]

theorem rectangle_foldl_inv (cs : List (RectangleCall ℝ)) :
    ∀ h : Tracked (RectangleBuilder ℝ),
      ((0 ≤ h.obj.length ∧ 0 ≤ h.obj.breadth) ∧
        (h.lastCompute = none → h.obj.area = 0 ∧ h.obj.perimeter = 0) ∧
        (∀ pre, h.lastCompute = some pre →
          (0 ≤ pre.length ∧ 0 ≤ pre.breadth) ∧
          h.obj.area = pre.length * pre.breadth ∧
          h.obj.perimeter = 2 * (pre.length + pre.breadth))) →
      (((cs.foldl RectangleCall.step h).lastCompute = none →
          (cs.foldl RectangleCall.step h).obj.area = 0 ∧
          (cs.foldl RectangleCall.step h).obj.perimeter = 0) ∧
        (∀ pre, (cs.foldl RectangleCall.step h).lastCompute = some pre →
          (0 ≤ pre.length ∧ 0 ≤ pre.breadth) ∧
          (cs.foldl RectangleCall.step h).obj.area = pre.length * pre.breadth ∧
          (cs.foldl RectangleCall.step h).obj.perimeter
            = 2 * (pre.length + pre.breadth))) := by
  induction cs with
  | nil => intro h hh; exact hh.2
  | cons c cs ih =>
    intro h hh
    rw [List.foldl_cons]
    apply ih
    obtain ⟨⟨hl, hb⟩, h0, h1⟩ := hh
    cases c with
    | setLength val =>
      rcases le_or_lt val 0 with hv | hv
      · simpa [RectangleCall.step, setLength_of_nonpos _ hv] using ⟨⟨hl, hb⟩, h0, h1⟩
      · simpa [RectangleCall.step, setLength_of_pos _ hv] using ⟨⟨hv.le, hb⟩, h0, h1⟩
    | setBreadth val =>
      rcases le_or_lt val 0 with hv | hv
      · simpa [RectangleCall.step, setBreadth_of_nonpos _ hv] using ⟨⟨hl, hb⟩, h0, h1⟩
      · simpa [RectangleCall.step, setBreadth_of_pos _ hv] using ⟨⟨hl, hv.le⟩, h0, h1⟩
    | compute =>
      simp [RectangleCall.step, RectangleBuilder.compute, succeeds, hl, hb]

theorem triangle_foldl_inv (cs : List (TriangleCall ℝ)) :
    ∀ h : Tracked (TriangleBuilder ℝ),
      ((h.lastCompute = none → h.obj.area = 0 ∧ h.obj.perimeter = 0) ∧
        (h.lastCompute.isSome = true → h.obj.area ≠ 0 ∧ h.obj.perimeter ≠ 0)) →
      (((cs.foldl TriangleCall.step h).lastCompute = none →
          (cs.foldl TriangleCall.step h).obj.area = 0 ∧
          (cs.foldl TriangleCall.step h).obj.perimeter = 0) ∧
        ((cs.foldl TriangleCall.step h).lastCompute.isSome = true →
          (cs.foldl TriangleCall.step h).obj.area ≠ 0 ∧
          (cs.foldl TriangleCall.step h).obj.perimeter ≠ 0)) := by
  induction cs with
  | nil => intro h hh; exact hh
  | cons c cs ih =>
    intro h hh
    rw [List.foldl_cons]
    apply ih
    cases c with
    | setSideA val =>
      rcases le_or_lt val 0 with hv | hv
      · simpa [TriangleCall.step, setSideA_of_nonpos _ hv] using hh
      · simpa [TriangleCall.step, setSideA_of_pos _ hv] using hh
    | setSideB val =>
      rcases le_or_lt val 0 with hv | hv
      · simpa [TriangleCall.step, setSideB_of_nonpos _ hv] using hh
      · simpa [TriangleCall.step, setSideB_of_pos _ hv] using hh
    | setSideC val =>
      rcases le_or_lt val 0 with hv | hv
      · simpa [TriangleCall.step, setSideC_of_nonpos _ hv] using hh
      · simpa [TriangleCall.step, setSideC_of_pos _ hv] using hh
    | compute =>
      by_cases hv : h.obj.a + h.obj.b ≤ h.obj.c ∨ h.obj.a + h.obj.c ≤ h.obj.b
          ∨ h.obj.b + h.obj.c ≤ h.obj.a
      · simpa [TriangleCall.step, compute_of_violated _ hv, succeeds] using hh
      · have hp := compute_valid_pos h.obj hv
        have hs : succeeds h.obj.compute.1 = true := by
          rw [compute_of_valid _ hv]; rfl
        simp only [TriangleCall.step, hs, if_true]
        exact ⟨fun hn => by simp at hn, fun _ => ⟨hp.1.ne', hp.2.ne'⟩⟩

end RealHelpers

section DoubleHelpers

theorem circle_foldl_zero_until_compute (cs : List (CircleCall Dbl)) :
    ∀ h : Tracked (CircleBuilder Dbl),
      (h.lastCompute = none → h.obj.area = 0 ∧ h.obj.perimeter = 0) →
      (cs.foldl CircleCall.step h).lastCompute = none →
      (cs.foldl CircleCall.step h).obj.area = 0 ∧
      (cs.foldl CircleCall.step h).obj.perimeter = 0 := by
  induction cs with
  | nil => intro h hh; exact hh
  | cons c cs ih =>
    intro h hh
    rw [List.foldl_cons]
    apply ih
    cases c with
    | setRadius val =>
      simp only [CircleCall.step, CircleBuilder.setRadius]
      split <;> exact hh
    | compute =>
      intro hn
      simp [CircleCall.step, CircleBuilder.compute, succeeds] at hn

theorem rectangle_foldl_zero_until_compute (cs : List (RectangleCall Dbl)) :
    ∀ h : Tracked (RectangleBuilder Dbl),
      (h.lastCompute = none → h.obj.area = 0 ∧ h.obj.perimeter = 0) →
      (cs.foldl RectangleCall.step h).lastCompute = none →
      (cs.foldl RectangleCall.step h).obj.area = 0 ∧
      (cs.foldl RectangleCall.step h).obj.perimeter = 0 := by
  induction cs with
  | nil => intro h hh; exact hh
  | cons c cs ih =>
    intro h hh
    rw [List.foldl_cons]
    apply ih
    cases c with
    | setLength val =>
      simp only [RectangleCall.step, RectangleBuilder.setLength]
      split <;> exact hh
    | setBreadth val =>
      simp only [RectangleCall.step, RectangleBuilder.setBreadth]
      split <;> exact hh
    | compute =>
      intro hn
      simp [RectangleCall.step, RectangleBuilder.compute, succeeds] at hn

theorem triangle_foldl_zero_until_compute (cs : List (TriangleCall Dbl)) :
    ∀ h : Tracked (TriangleBuilder Dbl),
      (h.lastCompute = none → h.obj.area = 0 ∧ h.obj.perimeter = 0) →
      (cs.foldl TriangleCall.step h).lastCompute = none →
      (cs.foldl TriangleCall.step h).obj.area = 0 ∧
      (cs.foldl TriangleCall.step h).obj.perimeter = 0 := by
  induction cs with
  | nil => intro h hh; exact hh
  | cons c cs ih =>
    intro h hh
    rw [List.foldl_cons]
    apply ih
    cases c with
    | setSideA val =>
      simp only [TriangleCall.step, TriangleBuilder.setSideA]
      split <;> exact hh
    | setSideB val =>
      simp only [TriangleCall.step, TriangleBuilder.setSideB]
      split <;> exact hh
    | setSideC val =>
      simp only [TriangleCall.step, TriangleBuilder.setSideC]
      split <;> exact hh
    | compute =>
      simp only [TriangleCall.step, TriangleBuilder.compute]
      split
      · simpa [succeeds] using hh
      · intro hn
        simp [succeeds] at hn

end DoubleHelpers

section FactoryHelpers

/-- Equal observations mean: both operations succeed or both fail, and two
returned shapes have equal area and equal perimeter. -/
theorem observed_eq_elim {F : Type} {r r' : Except (Error F) (Shape F)} (h : observed r = observed r') :
    succeeds r = succeeds r' ∧
    ∀ s s' : Shape F, r = .ok s → r' = .ok s' →
      s.getArea = s'.getArea ∧ s.getPerimeter = s'.getPerimeter := by
  cases r with
  | error e =>
    cases r' with
    | error e' => exact ⟨rfl, fun s s' hs => by simp at hs⟩
    | ok t' => simp [observed] at h
  | ok t =>
    cases r' with
    | error e' => simp [observed] at h
    | ok t' =>
      simp only [observed, Option.some.injEq, Prod.mk.injEq] at h
      refine ⟨rfl, fun s s' hs hs' => ?_⟩
      simp only [Except.ok.injEq] at hs hs'
      rw [← hs, ← hs']
      exact h

/-- The orderings of three values. -/
theorem perm_three_cases {F : Type} {a b c x y z : F} (h : [x, y, z].Perm [a, b, c]) :
    (x = a ∧ y = b ∧ z = c) ∨ (x = a ∧ y = c ∧ z = b) ∨ (x = b ∧ y = a ∧ z = c) ∨
    (x = b ∧ y = c ∧ z = a) ∨ (x = c ∧ y = a ∧ z = b) ∨ (x = c ∧ y = b ∧ z = a) := by
  have pair : ∀ {p q u v : F}, [p, q].Perm [u, v] → (p = u ∧ q = v) ∨ (p = v ∧ q = u) := by
    intro p q u v hp
    have hm : p ∈ [u, v] := hp.subset (List.mem_cons_self _ _)
    simp only [List.mem_cons, List.mem_singleton, List.not_mem_nil, or_false] at hm
    rcases hm with rfl | rfl
    · exact Or.inl ⟨rfl, List.singleton_perm_singleton.mp ((List.perm_cons p).mp hp)⟩
    · have hp' : [p, q].Perm [p, u] := hp.trans (List.Perm.swap p u [])
      exact Or.inr ⟨rfl, List.singleton_perm_singleton.mp ((List.perm_cons p).mp hp')⟩
  have hm : x ∈ [a, b, c] := h.subset (List.mem_cons_self _ _)
  simp only [List.mem_cons, List.mem_singleton, List.not_mem_nil, or_false] at hm
  rcases hm with rfl | rfl | rfl
  · rcases pair ((List.perm_cons x).mp h) with ⟨h1, h2⟩ | ⟨h1, h2⟩
    · exact Or.inl ⟨rfl, h1, h2⟩
    · exact Or.inr (Or.inl ⟨rfl, h1, h2⟩)
  · have h' : [x, y, z].Perm [x, a, c] := h.trans (List.Perm.swap x a [c])
    rcases pair ((List.perm_cons x).mp h') with ⟨h1, h2⟩ | ⟨h1, h2⟩
    · exact Or.inr (Or.inr (Or.inl ⟨rfl, h1, h2⟩))
    · exact Or.inr (Or.inr (Or.inr (Or.inl ⟨rfl, h1, h2⟩)))
  · have h' : [x, y, z].Perm [x, a, b] :=
      (h.trans ((List.Perm.swap x b []).cons a)).trans (List.Perm.swap x a [b])
    rcases pair ((List.perm_cons x).mp h') with ⟨h1, h2⟩ | ⟨h1, h2⟩
    · exact Or.inr (Or.inr (Or.inr (Or.inr (Or.inl ⟨rfl, h1, h2⟩))))
    · exact Or.inr (Or.inr (Or.inr (Or.inr (Or.inr ⟨rfl, h1, h2⟩))))

variable {F : Type} [LinearOrderedField F]

/-- A rectangle is returned only for positive arguments, and is then the
computed one. -/
theorem createRectangle_ok_inv {l b : F} {shape : Shape F}
    (h : ShapeFactory.createRectangle l b = .ok shape) :
    0 < l ∧ 0 < b ∧
    shape = .rectangle { length := l, breadth := b, area := l * b, perimeter := 2 * (l + b) }
    := by
  rcases le_or_lt l 0 with hl | hl
  · rw [createRectangle_of_nonpos_length b hl] at h
    simp at h
  rcases le_or_lt b 0 with hb | hb
  · rw [createRectangle_of_nonpos_breadth hl hb] at h
    simp at h
  rw [createRectangle_of_pos hl hb] at h
  simp only [Except.ok.injEq] at h
  exact ⟨hl, hb, h.symm⟩

variable [FloatMath F]

/-- A circle is returned only for a positive radius, and is then the computed
one. -/
theorem createCircle_ok_inv {r : F} {shape : Shape F}
    (h : ShapeFactory.createCircle r = .ok shape) :
    0 < r ∧ shape = .circle { radius := r, area := PI * r * r, perimeter := 2 * PI * r } := by
  rcases le_or_lt r 0 with hr | hr
  · rw [createCircle_of_nonpos hr] at h
    simp at h
  rw [createCircle_of_pos hr] at h
  simp only [Except.ok.injEq] at h
  exact ⟨hr, h.symm⟩

/-- A triangle is returned only for positive sides that satisfy the strict
triangle inequality, and is then the computed one. -/
theorem createTriangle_ok_inv {a b c : F} {shape : Shape F}
    (h : ShapeFactory.createTriangle a b c = .ok shape) :
    0 < a ∧ 0 < b ∧ 0 < c ∧ ¬ (a + b ≤ c ∨ a + c ≤ b ∨ b + c ≤ a) ∧
    shape = .triangle
      { a := a
        b := b
        c := c
        area := FloatMath.sqrt ((a + b + c) / 2 * ((a + b + c) / 2 - a)
          * ((a + b + c) / 2 - b) * ((a + b + c) / 2 - c))
        perimeter := a + b + c } := by
  rcases le_or_lt a 0 with ha | ha
  · rw [createTriangle_of_nonpos_a b c ha] at h
    simp at h
  rcases le_or_lt b 0 with hb | hb
  · rw [createTriangle_of_nonpos_b c ha hb] at h
    simp at h
  rcases le_or_lt c 0 with hc | hc
  · rw [createTriangle_of_nonpos_c ha hb hc] at h
    simp at h
  by_cases hv : a + b ≤ c ∨ a + c ≤ b ∨ b + c ≤ a
  · rw [createTriangle_of_violated ha hb hc hv] at h
    simp at h
  rw [createTriangle_of_valid ha hb hc hv] at h
  simp only [Except.ok.injEq] at h
  exact ⟨ha, hb, hc, hv, h.symm⟩

/-- What is observed of `createTriangle`, in closed form. -/
theorem observed_createTriangle (a b c : F) :
    observed (ShapeFactory.createTriangle a b c) =
      if 0 < a ∧ 0 < b ∧ 0 < c ∧ ¬ (a + b ≤ c ∨ a + c ≤ b ∨ b + c ≤ a) then
        some (FloatMath.sqrt ((a + b + c) / 2 * ((a + b + c) / 2 - a)
          * ((a + b + c) / 2 - b) * ((a + b + c) / 2 - c)), a + b + c)
      else none := by
  rcases le_or_lt a 0 with ha | ha
  · rw [createTriangle_of_nonpos_a b c ha, if_neg (fun h => absurd h.1 (not_lt.mpr ha))]
    rfl
  rcases le_or_lt b 0 with hb | hb
  · rw [createTriangle_of_nonpos_b c ha hb, if_neg (fun h => absurd h.2.1 (not_lt.mpr hb))]
    rfl
  rcases le_or_lt c 0 with hc | hc
  · rw [createTriangle_of_nonpos_c ha hb hc,
      if_neg (fun h => absurd h.2.2.1 (not_lt.mpr hc))]
    rfl
  by_cases hv : a + b ≤ c ∨ a + c ≤ b ∨ b + c ≤ a
  · rw [createTriangle_of_violated ha hb hc hv, if_neg (fun h => h.2.2.2 hv)]
    rfl
  · rw [createTriangle_of_valid ha hb hc hv, if_pos ⟨ha, hb, hc, hv⟩]
    rfl

/-- Exchanging the first two sides does not change what is observed. -/
theorem observed_createTriangle_swap_ab (a b c : F) :
    observed (ShapeFactory.createTriangle b a c)
      = observed (ShapeFactory.createTriangle a b c) := by
  rw [observed_createTriangle, observed_createTriangle]
  have hc : (0 < b ∧ 0 < a ∧ 0 < c ∧ ¬ (b + a ≤ c ∨ b + c ≤ a ∨ a + c ≤ b)) ↔
      (0 < a ∧ 0 < b ∧ 0 < c ∧ ¬ (a + b ≤ c ∨ a + c ≤ b ∨ b + c ≤ a)) := by
    rw [add_comm b a]
    tauto
  have hr : (b + a + c) / 2 * ((b + a + c) / 2 - b) * ((b + a + c) / 2 - a)
      * ((b + a + c) / 2 - c) = (a + b + c) / 2 * ((a + b + c) / 2 - a)
      * ((a + b + c) / 2 - b) * ((a + b + c) / 2 - c) := by ring
  have hp : b + a + c = a + b + c := by ring
  rw [hr, hp]
  exact if_congr hc rfl rfl

/-- Exchanging the last two sides does not change what is observed. -/
theorem observed_createTriangle_swap_bc (a b c : F) :
    observed (ShapeFactory.createTriangle a c b)
      = observed (ShapeFactory.createTriangle a b c) := by
  rw [observed_createTriangle, observed_createTriangle]
  have hc : (0 < a ∧ 0 < c ∧ 0 < b ∧ ¬ (a + c ≤ b ∨ a + b ≤ c ∨ c + b ≤ a)) ↔
      (0 < a ∧ 0 < b ∧ 0 < c ∧ ¬ (a + b ≤ c ∨ a + c ≤ b ∨ b + c ≤ a)) := by
    rw [add_comm c b]
    tauto
  have hr : (a + c + b) / 2 * ((a + c + b) / 2 - a) * ((a + c + b) / 2 - c)
      * ((a + c + b) / 2 - b) = (a + b + c) / 2 * ((a + b + c) / 2 - a)
      * ((a + b + c) / 2 - b) * ((a + b + c) / 2 - c) := by ring
  have hp : a + c + b = a + b + c := by ring
  rw [hr, hp]
  exact if_congr hc rfl rfl

end FactoryHelpers

/-! ### Claims on call sequences, failures and symmetry -/

section Claims2

open ShapeFactory

variable {F : Type} [LinearOrderedField F]

/-- C11 as stated fails: after the single call `compute` on a fresh
`CircleBuilder` a `compute` has returned normally, yet area and perimeter are
still zero. -/
theorem fields_nonzero_iff_computed_counterexample :
    ¬ (((CircleBuilder.runCalls [CircleCall.compute] :
          Tracked (CircleBuilder ℝ)).obj.area ≠ 0 ∧
        (CircleBuilder.runCalls [CircleCall.compute] :
          Tracked (CircleBuilder ℝ)).obj.perimeter ≠ 0) ↔
      (CircleBuilder.runCalls [CircleCall.compute] :
          Tracked (CircleBuilder ℝ)).lastCompute.isSome = true) := by
  simp [CircleBuilder.runCalls, CircleCall.step, CircleBuilder.compute, CircleBuilder.make,
    succeeds]

/-- C11, amended: in every state reached from a fresh builder by setter and
`compute` calls, area and perimeter are both zero until the builder has
completed a successful `compute` (in the code's own binary64 arithmetic), so a
non-zero field always comes from a successful `compute`; and, with arithmetic
read over the reals, area and perimeter are both non-zero if and only if the
builder has completed a successful `compute` and its latest successful
`compute` found every dimension field set (non-zero), which for a
`TriangleBuilder` every successful `compute` does. -/
theorem fields_nonzero_iff_computed_with_dimensions
    (dc : List (CircleCall Dbl)) (dr : List (RectangleCall Dbl)) (dt : List (TriangleCall Dbl))
    (cs : List (CircleCall ℝ)) (rs : List (RectangleCall ℝ)) (ts : List (TriangleCall ℝ)) :
    ((CircleBuilder.runCalls dc).lastCompute = none →
      (CircleBuilder.runCalls dc).obj.area = 0 ∧ (CircleBuilder.runCalls dc).obj.perimeter = 0) ∧
    ((RectangleBuilder.runCalls dr).lastCompute = none →
      (RectangleBuilder.runCalls dr).obj.area = 0 ∧
      (RectangleBuilder.runCalls dr).obj.perimeter = 0) ∧
    ((TriangleBuilder.runCalls dt).lastCompute = none →
      (TriangleBuilder.runCalls dt).obj.area = 0 ∧
      (TriangleBuilder.runCalls dt).obj.perimeter = 0) ∧
    (((CircleBuilder.runCalls cs).obj.area ≠ 0 ∧ (CircleBuilder.runCalls cs).obj.perimeter ≠ 0)
      ↔ ∃ pre, (CircleBuilder.runCalls cs).lastCompute = some pre ∧ pre.radius ≠ 0) ∧
    (((RectangleBuilder.runCalls rs).obj.area ≠ 0 ∧
        (RectangleBuilder.runCalls rs).obj.perimeter ≠ 0)
      ↔ ∃ pre, (RectangleBuilder.runCalls rs).lastCompute = some pre ∧
          pre.length ≠ 0 ∧ pre.breadth ≠ 0) ∧
    (((TriangleBuilder.runCalls ts).obj.area ≠ 0 ∧
        (TriangleBuilder.runCalls ts).obj.perimeter ≠ 0)
      ↔ (TriangleBuilder.runCalls ts).lastCompute.isSome = true) := by
  refine ⟨circle_foldl_zero_until_compute dc _ (fun _ => ⟨rfl, rfl⟩),
    rectangle_foldl_zero_until_compute dr _ (fun _ => ⟨rfl, rfl⟩),
    triangle_foldl_zero_until_compute dt _ (fun _ => ⟨rfl, rfl⟩), ?_, ?_, ?_⟩
  · obtain ⟨h0, h1⟩ := circle_foldl_inv cs
      { obj := CircleBuilder.make, lastCompute := none }
      ⟨fun _ => ⟨rfl, rfl⟩, fun pre hp => by simp at hp⟩
    show ((cs.foldl CircleCall.step _).obj.area ≠ 0 ∧ _) ↔ _
    cases hL : (cs.foldl CircleCall.step
        { obj := CircleBuilder.make, lastCompute := none }).lastCompute with
    | none =>
      simp [CircleBuilder.runCalls, hL, h0 hL]
    | some pre =>
      obtain ⟨ha, hp⟩ := h1 pre hL
      simp [CircleBuilder.runCalls, hL, ha, hp, Real.pi_ne_zero]
  · obtain ⟨h0, h1⟩ := rectangle_foldl_inv rs
      { obj := RectangleBuilder.make, lastCompute := none }
      ⟨⟨le_refl _, le_refl _⟩, fun _ => ⟨rfl, rfl⟩, fun pre hp => by simp at hp⟩
    cases hL : (rs.foldl RectangleCall.step
        { obj := RectangleBuilder.make, lastCompute := none }).lastCompute with
    | none =>
      simp [RectangleBuilder.runCalls, hL, h0 hL]
    | some pre =>
      obtain ⟨⟨hl, hb⟩, ha, hp⟩ := h1 pre hL
      simp only [RectangleBuilder.runCalls, hL, ha, hp, Option.some.injEq, exists_eq_left']
      constructor
      · rintro ⟨h, -⟩
        exact mul_ne_zero_iff.mp h
      · rintro ⟨hl', hb'⟩
        have hl2 : 0 < pre.length := lt_of_le_of_ne hl (Ne.symm hl')
        have hb2 : 0 < pre.breadth := lt_of_le_of_ne hb (Ne.symm hb')
        exact ⟨mul_ne_zero hl' hb', by positivity⟩
  · obtain ⟨h0, h1⟩ := triangle_foldl_inv ts
      { obj := TriangleBuilder.make, lastCompute := none }
      ⟨fun _ => ⟨rfl, rfl⟩, fun hp => by simp at hp⟩
    cases hL : (ts.foldl TriangleCall.step
        { obj := TriangleBuilder.make, lastCompute := none }).lastCompute with
    | none =>
      simp [TriangleBuilder.runCalls, hL, h0 hL]
    | some pre =>
      have := h1 (by rw [hL]; rfl)
      simp [TriangleBuilder.runCalls, hL, this]

/-- Witness of C11 (amended): after `setRadius 2` alone on a fresh binary64
`CircleBuilder` no `compute` has succeeded and both fields are zero. -/
theorem fields_nonzero_iff_computed_with_dimensions_witness :
    (CircleBuilder.runCalls [CircleCall.setRadius (Dbl.fin 1 1)]).lastCompute = none ∧
    (CircleBuilder.runCalls [CircleCall.setRadius (Dbl.fin 1 1)]).obj.area = 0 ∧
    (CircleBuilder.runCalls [CircleCall.setRadius (Dbl.fin 1 1)]).obj.perimeter = 0 :=
  have h : (CircleBuilder.runCalls [CircleCall.setRadius (Dbl.fin 1 1)]).lastCompute = none :=
    rfl
  ⟨h, (fields_nonzero_iff_computed_with_dimensions
    [CircleCall.setRadius (Dbl.fin 1 1)] [] [] [] [] []).1 h⟩

/-- C12: on a freshly created `CircleBuilder` on which `setRadius` was never
called, `compute` returns normally and leaves area 0 and perimeter 0. -/
theorem fresh_circle_compute_zero [FloatMath F] :
    (CircleBuilder.make : CircleBuilder F).compute.1 = .ok () ∧
    (CircleBuilder.make : CircleBuilder F).compute.2.radius = 0 ∧
    (CircleBuilder.make : CircleBuilder F).compute.2.getArea = 0 ∧
    (CircleBuilder.make : CircleBuilder F).compute.2.getPerimeter = 0 := by
  simp [CircleBuilder.compute, CircleBuilder.make, CircleBuilder.getArea,
    CircleBuilder.getPerimeter]

/-- C13 as stated fails: on a fresh `RectangleBuilder` with only `setBreadth 3`
called, `compute` returns normally with area 0 but perimeter 6, not 0. -/
theorem rectangle_unset_zero_counterexample :
    (RectangleBuilder.make.setBreadth (3 : ℚ)).1 = .ok () ∧
    (RectangleBuilder.make.setBreadth (3 : ℚ)).2.length = 0 ∧
    (RectangleBuilder.make.setBreadth (3 : ℚ)).2.compute.1 = .ok () ∧
    (RectangleBuilder.make.setBreadth (3 : ℚ)).2.compute.2.getArea = 0 ∧
    (RectangleBuilder.make.setBreadth (3 : ℚ)).2.compute.2.getPerimeter = 6 ∧
    ¬ ((RectangleBuilder.make.setBreadth (3 : ℚ)).2.compute.2.getArea = 0 ∧
      (RectangleBuilder.make.setBreadth (3 : ℚ)).2.compute.2.getPerimeter = 0) := by
  have h : (RectangleBuilder.make.setBreadth (3 : ℚ))
      = (.ok (), { length := 0, breadth := 3, area := 0, perimeter := 0 }) :=
    setBreadth_of_pos _ (by norm_num)
  rw [h]
  simp [RectangleBuilder.compute, RectangleBuilder.getArea, RectangleBuilder.getPerimeter]
  norm_num

/-- C13, amended: on a `RectangleBuilder` in which at least one of `length`,
`breadth` still holds the zero default and the other holds a finite value,
`compute` returns normally and yields zero area, in the code's own binary64
arithmetic as over the reals (an infinite value would give the area
`inf * 0`, a NaN); with arithmetic read over the reals the perimeter is twice
the other field, hence zero only if that one is unset too. -/
theorem rectangle_unset_zero_area (r : RectangleBuilder F)
    (h : r.length = 0 ∨ r.breadth = 0) (m e : ℤ) (ar p : Dbl) :
    r.compute.1 = .ok () ∧
    r.compute.2.getArea = 0 ∧
    (r.length = 0 → r.compute.2.getPerimeter = 2 * r.breadth) ∧
    (r.breadth = 0 → r.compute.2.getPerimeter = 2 * r.length) ∧
    (r.compute.2.getPerimeter = 0 ↔ r.length + r.breadth = 0) ∧
    succeeds (RectangleBuilder.compute
      ({ length := Dbl.fin m e, breadth := 0, area := ar, perimeter := p } :
        RectangleBuilder Dbl)).1 = true ∧
    (RectangleBuilder.compute
      ({ length := Dbl.fin m e, breadth := 0, area := ar, perimeter := p } :
        RectangleBuilder Dbl)).2.getArea = 0 ∧
    succeeds (RectangleBuilder.compute
      ({ length := 0, breadth := Dbl.fin m e, area := ar, perimeter := p } :
        RectangleBuilder Dbl)).1 = true ∧
    (RectangleBuilder.compute
      ({ length := 0, breadth := Dbl.fin m e, area := ar, perimeter := p } :
        RectangleBuilder Dbl)).2.getArea = 0 := by
  refine ⟨rfl, ?_, ?_, ?_, ?_, rfl, ?_, rfl, ?_⟩
  · show r.length * r.breadth = 0
    rcases h with h | h <;> simp [h]
  · intro hl
    show 2 * (r.length + r.breadth) = 2 * r.breadth
    rw [hl, zero_add]
  · intro hb
    show 2 * (r.length + r.breadth) = 2 * r.length
    rw [hb, add_zero]
  · show 2 * (r.length + r.breadth) = 0 ↔ r.length + r.breadth = 0
    simp
  · show Dbl.mul (Dbl.fin m e) (Dbl.fin 0 0) = Dbl.fin 0 0
    simp [Dbl.mul, Dbl.round]
  · show Dbl.mul (Dbl.fin 0 0) (Dbl.fin m e) = Dbl.fin 0 0
    simp [Dbl.mul, Dbl.round]

/-- Witness of C13 (amended): the fresh builder after `setBreadth 3`. -/
theorem rectangle_unset_zero_area_witness :
    ((RectangleBuilder.make.setBreadth (3 : ℚ)).2.length = 0 ∨
      (RectangleBuilder.make.setBreadth (3 : ℚ)).2.breadth = 0) ∧
    (RectangleBuilder.make.setBreadth (3 : ℚ)).2.compute.1 = .ok () ∧
    (RectangleBuilder.make.setBreadth (3 : ℚ)).2.compute.2.getArea = 0 :=
  have h : (RectangleBuilder.make.setBreadth (3 : ℚ)).2.length = 0 ∨
      (RectangleBuilder.make.setBreadth (3 : ℚ)).2.breadth = 0 := by
    rw [setBreadth_of_pos _ (by norm_num)]
    exact Or.inl rfl
  ⟨h, (rectangle_unset_zero_area _ h 3 0 0 0).1, (rectangle_unset_zero_area _ h 3 0 0 0).2.1⟩

/-- C14 as stated fails: the stored sides 1, 1, 5 and 1, 2, 3 make `compute`
throw the very same exception, so no function recovers the stored sides from
the `InvalidGeometry` error. -/
theorem invalidGeometry_carries_sides_counterexample :
    (TriangleBuilder.compute
        ({ a := 1, b := 1, c := 5, area := 0, perimeter := 0 } : TriangleBuilder ℝ)).1 =
      (TriangleBuilder.compute
        ({ a := 1, b := 2, c := 3, area := 0, perimeter := 0 } : TriangleBuilder ℝ)).1 ∧
    failsInvalidGeometry (TriangleBuilder.compute
        ({ a := 1, b := 1, c := 5, area := 0, perimeter := 0 } : TriangleBuilder ℝ)).1 = true ∧
    ¬ ∃ sides : Error ℝ → ℝ × ℝ × ℝ, ∀ (t : TriangleBuilder ℝ) (e : Error ℝ),
        t.compute.1 = .error e → sides e = (t.a, t.b, t.c) := by
  have h1 : (TriangleBuilder.compute
      ({ a := 1, b := 1, c := 5, area := 0, perimeter := 0 } : TriangleBuilder ℝ)).1
      = .error (.domain_error "Triangle sides do not satisfy the triangle inequality") := by
    rw [compute_of_violated _ (Or.inl (by norm_num))]
  have h2 : (TriangleBuilder.compute
      ({ a := 1, b := 2, c := 3, area := 0, perimeter := 0 } : TriangleBuilder ℝ)).1
      = .error (.domain_error "Triangle sides do not satisfy the triangle inequality") := by
    rw [compute_of_violated _ (Or.inl (by norm_num))]
  refine ⟨h1.trans h2.symm, by rw [h1]; rfl, ?_⟩
  rintro ⟨sides, hs⟩
  have e1 := hs _ _ h1
  have e2 := hs _ _ h2
  rw [e1] at e2
  simp at e2

/-- C14, amended: the `InvalidGeometry` error thrown by
`TriangleBuilder::compute` carries only the fixed message "Triangle sides do
not satisfy the triangle inequality", the same for every failing triple, and
no side value; the failed call leaves the builder as it was. -/
theorem invalidGeometry_fixed_message [FloatMath F] (t : TriangleBuilder F) (e : Error F)
    (h : t.compute.1 = .error e) :
    e = .domain_error "Triangle sides do not satisfy the triangle inequality" ∧
    t.compute.2 = t := by
  by_cases hv : t.a + t.b ≤ t.c ∨ t.a + t.c ≤ t.b ∨ t.b + t.c ≤ t.a
  · rw [compute_of_violated t hv] at h ⊢
    simp only [Except.error.injEq] at h
    exact ⟨h.symm, rfl⟩
  · rw [compute_of_valid t hv] at h
    simp at h

/-- Witness of C14 (amended): the stored sides 1, 1, 5. -/
theorem invalidGeometry_fixed_message_witness :
    (TriangleBuilder.compute
        ({ a := 1, b := 1, c := 5, area := 0, perimeter := 0 } : TriangleBuilder ℝ)).1
      = .error (.domain_error "Triangle sides do not satisfy the triangle inequality") ∧
    (Error.domain_error "Triangle sides do not satisfy the triangle inequality" : Error ℝ)
      = .domain_error "Triangle sides do not satisfy the triangle inequality" ∧
    (TriangleBuilder.compute
        ({ a := 1, b := 1, c := 5, area := 0, perimeter := 0 } : TriangleBuilder ℝ)).2
      = { a := 1, b := 1, c := 5, area := 0, perimeter := 0 } :=
  have h : (TriangleBuilder.compute
      ({ a := 1, b := 1, c := 5, area := 0, perimeter := 0 } : TriangleBuilder ℝ)).1
      = .error (.domain_error "Triangle sides do not satisfy the triangle inequality") := by
    rw [compute_of_violated _ (Or.inl (by norm_num))]
  ⟨h, invalidGeometry_fixed_message _ _ h⟩

/-- C15: `compute` recomputes from the stored dimension fields only and
overwrites both derived fields.  The outcome of `compute`, and after a
successful `compute` the area and perimeter, are determined by the dimension
fields alone; `compute` keeps the dimension fields; `compute` after `compute`
gives the same outcome and object as a single `compute`; and a `compute` after
changing a dimension gives the same outcome, and when it succeeds the same
object, whether or not an earlier `compute` had run.  The function of the
dimensions is the code's: `PI * radius * radius` and `2 * PI * radius`,
`length * breadth` and `2 * (length + breadth)`, and, when the check
`a + b <= c || a + c <= b || b + c <= a` does not fire, the square root of
`s * (s - a) * (s - b) * (s - c)` with `s = (a + b + c) / 2` and `a + b + c`;
when the check fires nothing is overwritten.  After a dimension is changed,
`compute` stores these values of the new dimensions. -/
theorem compute_depends_only_on_dimensions [FloatMath F] :
    (∀ k k' : CircleBuilder F, k.radius = k'.radius →
      k.compute.1 = k'.compute.1 ∧ k.compute.2.area = k'.compute.2.area ∧
      k.compute.2.perimeter = k'.compute.2.perimeter) ∧
    (∀ k : CircleBuilder F, k.compute.2.radius = k.radius ∧ k.compute.2.compute = k.compute) ∧
    (∀ (k : CircleBuilder F) (v : F),
      (k.compute.2.setRadius v).2.compute = (k.setRadius v).2.compute) ∧
    (∀ r r' : RectangleBuilder F, r.length = r'.length → r.breadth = r'.breadth →
      r.compute.1 = r'.compute.1 ∧ r.compute.2.area = r'.compute.2.area ∧
      r.compute.2.perimeter = r'.compute.2.perimeter) ∧
    (∀ r : RectangleBuilder F, r.compute.2.length = r.length ∧
      r.compute.2.breadth = r.breadth ∧ r.compute.2.compute = r.compute) ∧
    (∀ (r : RectangleBuilder F) (v : F),
      (r.compute.2.setLength v).2.compute = (r.setLength v).2.compute ∧
      (r.compute.2.setBreadth v).2.compute = (r.setBreadth v).2.compute) ∧
    (∀ t t' : TriangleBuilder F, t.a = t'.a → t.b = t'.b → t.c = t'.c →
      t.compute.1 = t'.compute.1 ∧
      (succeeds t.compute.1 = true → t.compute.2.area = t'.compute.2.area ∧
        t.compute.2.perimeter = t'.compute.2.perimeter)) ∧
    (∀ t : TriangleBuilder F, t.compute.2.a = t.a ∧ t.compute.2.b = t.b ∧
      t.compute.2.c = t.c ∧ t.compute.2.compute = t.compute) ∧
    (∀ (t : TriangleBuilder F) (v : F),
      ((t.compute.2.setSideA v).2.compute.1 = (t.setSideA v).2.compute.1 ∧
        (succeeds (t.setSideA v).2.compute.1 = true →
          (t.compute.2.setSideA v).2.compute.2 = (t.setSideA v).2.compute.2)) ∧
      ((t.compute.2.setSideB v).2.compute.1 = (t.setSideB v).2.compute.1 ∧
        (succeeds (t.setSideB v).2.compute.1 = true →
          (t.compute.2.setSideB v).2.compute.2 = (t.setSideB v).2.compute.2)) ∧
      ((t.compute.2.setSideC v).2.compute.1 = (t.setSideC v).2.compute.1 ∧
        (succeeds (t.setSideC v).2.compute.1 = true →
          (t.compute.2.setSideC v).2.compute.2 = (t.setSideC v).2.compute.2))) ∧
    (∀ k : CircleBuilder F, k.compute =
      (.ok (), { radius := k.radius, area := PI * k.radius * k.radius,
                 perimeter := 2 * PI * k.radius })) ∧
    (∀ r : RectangleBuilder F, r.compute =
      (.ok (), { length := r.length, breadth := r.breadth, area := r.length * r.breadth,
                 perimeter := 2 * (r.length + r.breadth) })) ∧
    (∀ t : TriangleBuilder F, (t.a + t.b ≤ t.c ∨ t.a + t.c ≤ t.b ∨ t.b + t.c ≤ t.a) →
      t.compute =
        (.error (.domain_error "Triangle sides do not satisfy the triangle inequality"), t)) ∧
    (∀ t : TriangleBuilder F, ¬ (t.a + t.b ≤ t.c ∨ t.a + t.c ≤ t.b ∨ t.b + t.c ≤ t.a) →
      t.compute =
        (.ok (),
          { a := t.a
            b := t.b
            c := t.c
            area := FloatMath.sqrt ((t.a + t.b + t.c) / 2 * ((t.a + t.b + t.c) / 2 - t.a)
              * ((t.a + t.b + t.c) / 2 - t.b) * ((t.a + t.b + t.c) / 2 - t.c))
            perimeter := t.a + t.b + t.c })) ∧
    (∀ (k : CircleBuilder F) (v : F), 0 < v →
      (k.compute.2.setRadius v).2.compute.2 =
        { radius := v, area := PI * v * v, perimeter := 2 * PI * v }) ∧
    (∀ (r : RectangleBuilder F) (v : F), 0 < v →
      (r.compute.2.setLength v).2.compute.2 =
        { length := v, breadth := r.breadth, area := v * r.breadth,
          perimeter := 2 * (v + r.breadth) } ∧
      (r.compute.2.setBreadth v).2.compute.2 =
        { length := r.length, breadth := v, area := r.length * v,
          perimeter := 2 * (r.length + v) }) ∧
    (∀ (t : TriangleBuilder F) (v : F), 0 < v →
      ¬ (v + t.b ≤ t.c ∨ v + t.c ≤ t.b ∨ t.b + t.c ≤ v) →
      (t.compute.2.setSideA v).2.compute.2 =
        { a := v
          b := t.b
          c := t.c
          area := FloatMath.sqrt ((v + t.b + t.c) / 2 * ((v + t.b + t.c) / 2 - v)
            * ((v + t.b + t.c) / 2 - t.b) * ((v + t.b + t.c) / 2 - t.c))
          perimeter := v + t.b + t.c }) ∧
    (∀ (t : TriangleBuilder F) (v : F), 0 < v →
      ¬ (t.a + v ≤ t.c ∨ t.a + t.c ≤ v ∨ v + t.c ≤ t.a) →
      (t.compute.2.setSideB v).2.compute.2 =
        { a := t.a
          b := v
          c := t.c
          area := FloatMath.sqrt ((t.a + v + t.c) / 2 * ((t.a + v + t.c) / 2 - t.a)
            * ((t.a + v + t.c) / 2 - v) * ((t.a + v + t.c) / 2 - t.c))
          perimeter := t.a + v + t.c }) ∧
    (∀ (t : TriangleBuilder F) (v : F), 0 < v →
      ¬ (t.a + t.b ≤ v ∨ t.a + v ≤ t.b ∨ t.b + v ≤ t.a) →
      (t.compute.2.setSideC v).2.compute.2 =
        { a := t.a
          b := t.b
          c := v
          area := FloatMath.sqrt ((t.a + t.b + v) / 2 * ((t.a + t.b + v) / 2 - t.a)
            * ((t.a + t.b + v) / 2 - t.b) * ((t.a + t.b + v) / 2 - v))
          perimeter := t.a + t.b + v }) := by
  have triDet : ∀ t t' : TriangleBuilder F, t.a = t'.a → t.b = t'.b → t.c = t'.c →
      t.compute.1 = t'.compute.1 ∧
      (succeeds t.compute.1 = true →
        t.compute.2 = { t'.compute.2 with a := t.a, b := t.b, c := t.c }) := by
    intro t t' ha hb hc
    by_cases hv : t.a + t.b ≤ t.c ∨ t.a + t.c ≤ t.b ∨ t.b + t.c ≤ t.a
    · have hv' : t'.a + t'.b ≤ t'.c ∨ t'.a + t'.c ≤ t'.b ∨ t'.b + t'.c ≤ t'.a := by
        rw [← ha, ← hb, ← hc]; exact hv
      rw [compute_of_violated t hv, compute_of_violated t' hv']
      exact ⟨rfl, fun h => by simp [succeeds] at h⟩
    · have hv' : ¬ (t'.a + t'.b ≤ t'.c ∨ t'.a + t'.c ≤ t'.b ∨ t'.b + t'.c ≤ t'.a) := by
        rw [← ha, ← hb, ← hc]; exact hv
      rw [compute_of_valid t hv, compute_of_valid t' hv']
      refine ⟨rfl, fun _ => ?_⟩
      simp [ha, hb, hc]
  have triKeep : ∀ t : TriangleBuilder F, t.compute.2.a = t.a ∧ t.compute.2.b = t.b ∧
      t.compute.2.c = t.c := by
    intro t
    by_cases hv : t.a + t.b ≤ t.c ∨ t.a + t.c ≤ t.b ∨ t.b + t.c ≤ t.a
    · rw [compute_of_violated t hv]; exact ⟨rfl, rfl, rfl⟩
    · rw [compute_of_valid t hv]; exact ⟨rfl, rfl, rfl⟩
  refine ⟨?_, ?_, ?_, ?_, ?_, ?_, ?_, ?_, ?_, ?_, ?_, ?_, ?_, ?_, ?_, ?_, ?_, ?_⟩
  · intro k k' h
    simp [CircleBuilder.compute, h]
  · intro k
    simp [CircleBuilder.compute]
  · intro k v
    rcases le_or_lt v 0 with hv | hv
    · simp [setRadius_of_nonpos _ hv, CircleBuilder.compute]
    · simp [setRadius_of_pos _ hv, CircleBuilder.compute]
  · intro r r' hl hb
    simp [RectangleBuilder.compute, hl, hb]
  · intro r
    simp [RectangleBuilder.compute]
  · intro r v
    rcases le_or_lt v 0 with hv | hv
    · simp [setLength_of_nonpos _ hv, setBreadth_of_nonpos _ hv, RectangleBuilder.compute]
    · simp [setLength_of_pos _ hv, setBreadth_of_pos _ hv, RectangleBuilder.compute]
  · intro t t' ha hb hc
    obtain ⟨h1, h2⟩ := triDet t t' ha hb hc
    refine ⟨h1, fun hs => ?_⟩
    rw [h2 hs]
    exact ⟨rfl, rfl⟩
  · intro t
    obtain ⟨ha, hb, hc⟩ := triKeep t
    refine ⟨ha, hb, hc, ?_⟩
    by_cases hv : t.a + t.b ≤ t.c ∨ t.a + t.c ≤ t.b ∨ t.b + t.c ≤ t.a
    · rw [compute_of_violated t hv]
      exact compute_of_violated t hv
    · rw [compute_of_valid t hv]
      exact compute_of_valid _ hv
  · intro t v
    obtain ⟨ha, hb, hc⟩ := triKeep t
    have key : ∀ u u' : TriangleBuilder F, u.a = u'.a → u.b = u'.b → u.c = u'.c →
        u.compute.1 = u'.compute.1 ∧
        (succeeds u'.compute.1 = true → u.compute.2 = u'.compute.2) := by
      intro u u' h1 h2 h3
      obtain ⟨e, hs⟩ := triDet u u' h1 h2 h3
      refine ⟨e, fun h => ?_⟩
      rw [hs (e ▸ h)]
      obtain ⟨k1, k2, k3⟩ := triKeep u'
      cases hu : u'.compute.2
      simp only [hu] at k1 k2 k3
      simp [h1, h2, h3, k1, k2, k3]
    refine ⟨?_, ?_, ?_⟩
    · rcases le_or_lt v 0 with hv | hv
      · simp only [setSideA_of_nonpos _ hv]
        exact key _ _ ha hb hc
      · simp only [setSideA_of_pos _ hv]
        exact key _ _ rfl hb hc
    · rcases le_or_lt v 0 with hv | hv
      · simp only [setSideB_of_nonpos _ hv]
        exact key _ _ ha hb hc
      · simp only [setSideB_of_pos _ hv]
        exact key _ _ ha rfl hc
    · rcases le_or_lt v 0 with hv | hv
      · simp only [setSideC_of_nonpos _ hv]
        exact key _ _ ha hb hc
      · simp only [setSideC_of_pos _ hv]
        exact key _ _ ha hb rfl
  · intro k
    rfl
  · intro r
    rfl
  · intro t hv
    exact compute_of_violated t hv
  · intro t hv
    exact compute_of_valid t hv
  · intro k v hv
    simp [setRadius_of_pos _ hv, CircleBuilder.compute]
  · intro r v hv
    simp [setLength_of_pos _ hv, setBreadth_of_pos _ hv, RectangleBuilder.compute]
  · intro t v hv hg
    obtain ⟨ha, hb, hc⟩ := triKeep t
    rw [setSideA_of_pos _ hv]
    have hg' : ¬ (({ t.compute.2 with a := v } : TriangleBuilder F).a
          + ({ t.compute.2 with a := v } : TriangleBuilder F).b
          ≤ ({ t.compute.2 with a := v } : TriangleBuilder F).c ∨
        ({ t.compute.2 with a := v } : TriangleBuilder F).a
          + ({ t.compute.2 with a := v } : TriangleBuilder F).c
          ≤ ({ t.compute.2 with a := v } : TriangleBuilder F).b ∨
        ({ t.compute.2 with a := v } : TriangleBuilder F).b
          + ({ t.compute.2 with a := v } : TriangleBuilder F).c
          ≤ ({ t.compute.2 with a := v } : TriangleBuilder F).a) := by
      simpa [hb, hc] using hg
    rw [compute_of_valid _ hg']
    simp [hb, hc]
  · intro t v hv hg
    obtain ⟨ha, hb, hc⟩ := triKeep t
    rw [setSideB_of_pos _ hv]
    have hg' : ¬ (({ t.compute.2 with b := v } : TriangleBuilder F).a
          + ({ t.compute.2 with b := v } : TriangleBuilder F).b
          ≤ ({ t.compute.2 with b := v } : TriangleBuilder F).c ∨
        ({ t.compute.2 with b := v } : TriangleBuilder F).a
          + ({ t.compute.2 with b := v } : TriangleBuilder F).c
          ≤ ({ t.compute.2 with b := v } : TriangleBuilder F).b ∨
        ({ t.compute.2 with b := v } : TriangleBuilder F).b
          + ({ t.compute.2 with b := v } : TriangleBuilder F).c
          ≤ ({ t.compute.2 with b := v } : TriangleBuilder F).a) := by
      simpa [ha, hc] using hg
    rw [compute_of_valid _ hg']
    simp [ha, hc]
  · intro t v hv hg
    obtain ⟨ha, hb, hc⟩ := triKeep t
    rw [setSideC_of_pos _ hv]
    have hg' : ¬ (({ t.compute.2 with c := v } : TriangleBuilder F).a
          + ({ t.compute.2 with c := v } : TriangleBuilder F).b
          ≤ ({ t.compute.2 with c := v } : TriangleBuilder F).c ∨
        ({ t.compute.2 with c := v } : TriangleBuilder F).a
          + ({ t.compute.2 with c := v } : TriangleBuilder F).c
          ≤ ({ t.compute.2 with c := v } : TriangleBuilder F).b ∨
        ({ t.compute.2 with c := v } : TriangleBuilder F).b
          + ({ t.compute.2 with c := v } : TriangleBuilder F).c
          ≤ ({ t.compute.2 with c := v } : TriangleBuilder F).a) := by
      simpa [ha, hb] using hg
    rw [compute_of_valid _ hg']
    simp [ha, hb]

/-- Witness of C15: two `CircleBuilder` objects with radius 2 and different
stale derived fields compute the same area and perimeter. -/
theorem compute_depends_only_on_dimensions_witness :
    ({ radius := 2, area := 0, perimeter := 0 } : CircleBuilder ℝ).radius
      = ({ radius := 2, area := 5, perimeter := 7 } : CircleBuilder ℝ).radius ∧
    (CircleBuilder.compute ({ radius := 2, area := 0, perimeter := 0 } : CircleBuilder ℝ)).2.area
      = (CircleBuilder.compute
          ({ radius := 2, area := 5, perimeter := 7 } : CircleBuilder ℝ)).2.area ∧
    (CircleBuilder.compute
        ({ radius := 2, area := 0, perimeter := 0 } : CircleBuilder ℝ)).2.perimeter
      = (CircleBuilder.compute
          ({ radius := 2, area := 5, perimeter := 7 } : CircleBuilder ℝ)).2.perimeter :=
  ⟨rfl, ((@compute_depends_only_on_dimensions ℝ _ _).1 _ _ rfl).2⟩

/-- C16: setters are order-independent.  For positive values a successful
setter changes only its own field, so `setLength` and `setBreadth` in either
order, and `setSideA`, `setSideB`, `setSideC` in each of the six orders, lead
from the same builder to the same builder state. -/
theorem setters_order_independent (l w x y z : F) (hl : 0 < l) (hw : 0 < w)
    (hx : 0 < x) (hy : 0 < y) (hz : 0 < z) :
    (∀ r : RectangleBuilder F,
      (r.setLength l).2 = { r with length := l } ∧
      (r.setBreadth w).2 = { r with breadth := w } ∧
      ((r.setLength l).2.setBreadth w).2 = { r with length := l, breadth := w } ∧
      ((r.setBreadth w).2.setLength l).2 = { r with length := l, breadth := w }) ∧
    (∀ t : TriangleBuilder F,
      (t.setSideA x).2 = { t with a := x } ∧
      (t.setSideB y).2 = { t with b := y } ∧
      (t.setSideC z).2 = { t with c := z } ∧
      (((t.setSideA x).2.setSideB y).2.setSideC z).2 = { t with a := x, b := y, c := z } ∧
      (((t.setSideA x).2.setSideC z).2.setSideB y).2 = { t with a := x, b := y, c := z } ∧
      (((t.setSideB y).2.setSideA x).2.setSideC z).2 = { t with a := x, b := y, c := z } ∧
      (((t.setSideB y).2.setSideC z).2.setSideA x).2 = { t with a := x, b := y, c := z } ∧
      (((t.setSideC z).2.setSideA x).2.setSideB y).2 = { t with a := x, b := y, c := z } ∧
      (((t.setSideC z).2.setSideB y).2.setSideA x).2 = { t with a := x, b := y, c := z }) := by
  constructor
  · intro r
    simp [setLength_of_pos _ hl, setBreadth_of_pos _ hw]
  · intro t
    simp [setSideA_of_pos _ hx, setSideB_of_pos _ hy, setSideC_of_pos _ hz]

/-- Witness of C16 on fresh builders over the rationals. -/
theorem setters_order_independent_witness :
    ((0 : ℚ) < 4 ∧ (0 : ℚ) < 5 ∧ (0 : ℚ) < 2 ∧ (0 : ℚ) < 3 ∧ (0 : ℚ) < 7) ∧
    ((RectangleBuilder.make.setLength (4 : ℚ)).2.setBreadth 5).2
      = ((RectangleBuilder.make.setBreadth (5 : ℚ)).2.setLength 4).2 ∧
    (((TriangleBuilder.make.setSideA (2 : ℚ)).2.setSideB 3).2.setSideC 7).2
      = (((TriangleBuilder.make.setSideC (7 : ℚ)).2.setSideB 3).2.setSideA 2).2 :=
  have h := setters_order_independent (4 : ℚ) 5 2 3 7 (by norm_num) (by norm_num)
    (by norm_num) (by norm_num) (by norm_num)
  ⟨by norm_num,
    ((h.1 RectangleBuilder.make).2.2.1).trans ((h.1 RectangleBuilder.make).2.2.2).symm,
    ((h.2 TriangleBuilder.make).2.2.2.1).trans
      ((h.2 TriangleBuilder.make).2.2.2.2.2.2.2.2).symm⟩

/-- C17: every shape returned by a `ShapeFactory` operation has positive area
and positive perimeter over the reals; for the three triangle operations the
Heron radicand under the square root is positive. -/
theorem factory_shapes_positive (shape : Shape ℝ) :
    (∀ r : ℝ, createCircle r = .ok shape → 0 < shape.getArea ∧ 0 < shape.getPerimeter) ∧
    (∀ l w : ℝ, createRectangle l w = .ok shape →
      0 < shape.getArea ∧ 0 < shape.getPerimeter) ∧
    (∀ side : ℝ, createSquare side = .ok shape →
      0 < shape.getArea ∧ 0 < shape.getPerimeter) ∧
    (∀ a b c : ℝ, createTriangle a b c = .ok shape →
      0 < (a + b + c) / 2 * ((a + b + c) / 2 - a) * ((a + b + c) / 2 - b)
        * ((a + b + c) / 2 - c) ∧
      shape.getArea = heron a b c ∧ 0 < shape.getArea ∧ 0 < shape.getPerimeter) ∧
    (∀ e o : ℝ, createIsoscalesTriangle e o = .ok shape →
      0 < (e + e + o) / 2 * ((e + e + o) / 2 - e) * ((e + e + o) / 2 - e)
        * ((e + e + o) / 2 - o) ∧
      shape.getArea = heron e e o ∧ 0 < shape.getArea ∧ 0 < shape.getPerimeter) ∧
    (∀ s : ℝ, createEquilateralTriangle s = .ok shape →
      0 < (s + s + s) / 2 * ((s + s + s) / 2 - s) * ((s + s + s) / 2 - s)
        * ((s + s + s) / 2 - s) ∧
      shape.getArea = heron s s s ∧ 0 < shape.getArea ∧ 0 < shape.getPerimeter) := by
  have rect : ∀ l w : ℝ, createRectangle l w = .ok shape →
      0 < shape.getArea ∧ 0 < shape.getPerimeter := by
    intro l w h
    obtain ⟨hl, hw, rfl⟩ := createRectangle_ok_inv h
    constructor
    · show 0 < l * w
      positivity
    · show 0 < 2 * (l + w)
      positivity
  have tri : ∀ a b c : ℝ, createTriangle a b c = .ok shape →
      0 < (a + b + c) / 2 * ((a + b + c) / 2 - a) * ((a + b + c) / 2 - b)
        * ((a + b + c) / 2 - c) ∧
      shape.getArea = heron a b c ∧ 0 < shape.getArea ∧ 0 < shape.getPerimeter := by
    intro a b c h
    obtain ⟨ha, hb, hc, hv, rfl⟩ := createTriangle_ok_inv h
    simp only [not_or, not_le] at hv
    have hrad := heron_radicand_pos hv.1 hv.2.1 hv.2.2
    refine ⟨hrad, rfl, Real.sqrt_pos.mpr hrad, ?_⟩
    show 0 < a + b + c
    positivity
  refine ⟨?_, rect, fun side h => rect side side h, tri, fun e o h => tri e e o h,
    fun s h => tri s s s h⟩
  intro r h
  obtain ⟨hr, rfl⟩ := createCircle_ok_inv h
  constructor
  · show 0 < (PI : ℝ) * r * r
    rw [PI_real]
    have := Real.pi_pos
    positivity
  · show 0 < 2 * (PI : ℝ) * r
    rw [PI_real]
    have := Real.pi_pos
    positivity

/-- Witness of C17: the rectangle returned by `createRectangle 4 2.5`. -/
theorem factory_shapes_positive_witness :
    createRectangle (4 : ℝ) 2.5
      = .ok (Shape.rectangle { length := 4, breadth := 2.5, area := 10, perimeter := 13 }) ∧
    0 < (Shape.rectangle
      ({ length := 4, breadth := 2.5, area := 10, perimeter := 13 } : RectangleBuilder ℝ)).getArea ∧
    0 < (Shape.rectangle
      ({ length := 4, breadth := 2.5, area := 10, perimeter := 13 } : RectangleBuilder ℝ)).getPerimeter :=
  have h : createRectangle (4 : ℝ) 2.5
      = .ok (Shape.rectangle { length := 4, breadth := 2.5, area := 10, perimeter := 13 }) :=
    (createRectangle_of_pos (by norm_num) (by norm_num)).trans (by norm_num)
  ⟨h, (factory_shapes_positive _).2.1 4 2.5 h⟩

/-- C18 as stated fails in the code's own `double` arithmetic: `setSideB`
accepts a NaN (`NaN <= 0` is false), and `compute` then returns normally
although sides A and C were never set, because every comparison of its check
is false on a NaN. -/
theorem triangle_unset_side_nan_counterexample :
    succeeds (TriangleBuilder.make.setSideB Dbl.nan).1 = true ∧
    (TriangleBuilder.make.setSideB Dbl.nan).2.a = 0 ∧
    (TriangleBuilder.make.setSideB Dbl.nan).2.b = Dbl.nan ∧
    (TriangleBuilder.make.setSideB Dbl.nan).2.c = 0 ∧
    succeeds (TriangleBuilder.compute (TriangleBuilder.make.setSideB Dbl.nan).2).1 = true ∧
    failsInvalidGeometry
      (TriangleBuilder.compute (TriangleBuilder.make.setSideB Dbl.nan).2).1 = false := by
  decide

/-- C18, amended: on a `TriangleBuilder` in which at least one side still holds
the zero default and the other sides are unset or hold positive values,
`compute` always throws `InvalidGeometry` and leaves the builder as it was; in
particular `compute` on a fresh binary64 `TriangleBuilder` throws it. -/
theorem triangle_unset_side_fails [FloatMath F] (t : TriangleBuilder F)
    (_hpos : 0 ≤ t.a ∧ 0 ≤ t.b ∧ 0 ≤ t.c) (h : t.a = 0 ∨ t.b = 0 ∨ t.c = 0) :
    failsInvalidGeometry t.compute.1 = true ∧
    succeeds t.compute.1 = false ∧
    t.compute.2 = t ∧
    failsInvalidGeometry
      (TriangleBuilder.compute (TriangleBuilder.make : TriangleBuilder Dbl)).1 = true := by
  have key : t.a + t.b ≤ t.c ∨ t.a + t.c ≤ t.b ∨ t.b + t.c ≤ t.a := by
    rcases h with h | h | h
    · rw [h, zero_add, zero_add]
      rcases le_total t.b t.c with h' | h'
      · exact Or.inl h'
      · exact Or.inr (Or.inl h')
    · rw [h, add_zero, zero_add]
      rcases le_total t.a t.c with h' | h'
      · exact Or.inl h'
      · exact Or.inr (Or.inr h')
    · rw [h, add_zero, add_zero]
      rcases le_total t.a t.b with h' | h'
      · exact Or.inr (Or.inl h')
      · exact Or.inr (Or.inr h')
  rw [compute_of_violated t key]
  exact ⟨rfl, rfl, rfl, by decide⟩

/-- Witness of C18 (amended): sides A and B set to 3 and 4, side C never
set. -/
theorem triangle_unset_side_fails_witness :
    ((0 : ℝ) ≤ 3 ∧ (0 : ℝ) ≤ 4 ∧ (0 : ℝ) ≤ 0) ∧
    failsInvalidGeometry (TriangleBuilder.compute
      ({ a := 3, b := 4, c := 0, area := 0, perimeter := 0 } : TriangleBuilder ℝ)).1 = true :=
  have hpos : (0 : ℝ) ≤ 3 ∧ (0 : ℝ) ≤ 4 ∧ (0 : ℝ) ≤ 0 := by norm_num
  ⟨hpos, (triangle_unset_side_fails
    ({ a := 3, b := 4, c := 0, area := 0, perimeter := 0 } : TriangleBuilder ℝ)
    hpos (Or.inr (Or.inr rfl))).1⟩

/-- C19: failing operations are atomic.  A setter that throws
`InvalidParameter` leaves the whole builder (dimensions, area, perimeter) as
it was, and a `TriangleBuilder::compute` that throws `InvalidGeometry` leaves
`a`, `b`, `c`, area and perimeter as they were, so the accessors return what
they returned before the call. -/
theorem failing_call_leaves_object [FloatMath F] (val : F) :
    (∀ k : CircleBuilder F, failsInvalidParameter (k.setRadius val).1 = true →
      (k.setRadius val).2 = k) ∧
    (∀ r : RectangleBuilder F, failsInvalidParameter (r.setLength val).1 = true →
      (r.setLength val).2 = r) ∧
    (∀ r : RectangleBuilder F, failsInvalidParameter (r.setBreadth val).1 = true →
      (r.setBreadth val).2 = r) ∧
    (∀ t : TriangleBuilder F, failsInvalidParameter (t.setSideA val).1 = true →
      (t.setSideA val).2 = t) ∧
    (∀ t : TriangleBuilder F, failsInvalidParameter (t.setSideB val).1 = true →
      (t.setSideB val).2 = t) ∧
    (∀ t : TriangleBuilder F, failsInvalidParameter (t.setSideC val).1 = true →
      (t.setSideC val).2 = t) ∧
    (∀ t : TriangleBuilder F, failsInvalidGeometry t.compute.1 = true →
      t.compute.2 = t ∧ t.compute.2.getArea = t.getArea ∧
      t.compute.2.getPerimeter = t.getPerimeter) := by
  refine ⟨?_, ?_, ?_, ?_, ?_, ?_, ?_⟩
  · intro k h
    rcases le_or_lt val 0 with hv | hv
    · rw [setRadius_of_nonpos k hv]
    · rw [setRadius_of_pos k hv] at h
      simp [failsInvalidParameter] at h
  · intro r h
    rcases le_or_lt val 0 with hv | hv
    · rw [setLength_of_nonpos r hv]
    · rw [setLength_of_pos r hv] at h
      simp [failsInvalidParameter] at h
  · intro r h
    rcases le_or_lt val 0 with hv | hv
    · rw [setBreadth_of_nonpos r hv]
    · rw [setBreadth_of_pos r hv] at h
      simp [failsInvalidParameter] at h
  · intro t h
    rcases le_or_lt val 0 with hv | hv
    · rw [setSideA_of_nonpos t hv]
    · rw [setSideA_of_pos t hv] at h
      simp [failsInvalidParameter] at h
  · intro t h
    rcases le_or_lt val 0 with hv | hv
    · rw [setSideB_of_nonpos t hv]
    · rw [setSideB_of_pos t hv] at h
      simp [failsInvalidParameter] at h
  · intro t h
    rcases le_or_lt val 0 with hv | hv
    · rw [setSideC_of_nonpos t hv]
    · rw [setSideC_of_pos t hv] at h
      simp [failsInvalidParameter] at h
  · intro t h
    by_cases hv : t.a + t.b ≤ t.c ∨ t.a + t.c ≤ t.b ∨ t.b + t.c ≤ t.a
    · rw [compute_of_violated t hv]
      exact ⟨rfl, rfl, rfl⟩
    · rw [compute_of_valid t hv] at h
      simp [failsInvalidGeometry] at h

/-- Witness of C19: a computed 3, 4, 5 triangle keeps every field when
`setSideA 0` throws. -/
theorem failing_call_leaves_object_witness :
    failsInvalidParameter (TriangleBuilder.setSideA
      ({ a := 3, b := 4, c := 5, area := 6, perimeter := 12 } : TriangleBuilder ℝ) 0).1
      = true ∧
    (TriangleBuilder.setSideA
      ({ a := 3, b := 4, c := 5, area := 6, perimeter := 12 } : TriangleBuilder ℝ) 0).2
      = { a := 3, b := 4, c := 5, area := 6, perimeter := 12 } :=
  have h : failsInvalidParameter (TriangleBuilder.setSideA
      ({ a := 3, b := 4, c := 5, area := 6, perimeter := 12 } : TriangleBuilder ℝ) 0).1
      = true := by
    rw [setSideA_of_nonpos _ (le_refl 0)]
    rfl
  ⟨h, (failing_call_leaves_object (0 : ℝ)).2.2.2.1 _ h⟩

/-- C20: `createTriangle` is symmetric in its sides.  For every `a`, `b`, `c`
and every permutation `x`, `y`, `z` of them, `createTriangle x y z` succeeds
iff `createTriangle a b c` does, and two returned shapes have equal area and
equal perimeter; `createRectangle l w` and `createRectangle w l` agree in the
same way. -/
theorem createTriangle_symmetric [FloatMath F] (a b c x y z l w : F) :
    ([x, y, z].Perm [a, b, c] →
      succeeds (createTriangle x y z) = succeeds (createTriangle a b c) ∧
      ∀ s s' : Shape F, createTriangle x y z = .ok s → createTriangle a b c = .ok s' →
        s.getArea = s'.getArea ∧ s.getPerimeter = s'.getPerimeter) ∧
    (succeeds (createRectangle l w) = succeeds (createRectangle w l) ∧
      ∀ s s' : Shape F, createRectangle l w = .ok s → createRectangle w l = .ok s' →
        s.getArea = s'.getArea ∧ s.getPerimeter = s'.getPerimeter) := by
  constructor
  · intro h
    apply observed_eq_elim
    rcases perm_three_cases h with h1 | h2 | h3 | h4 | h5 | h6
    · obtain ⟨hx, hy, hz⟩ := h1
      subst hx hy hz
      rfl
    · obtain ⟨hx, hy, hz⟩ := h2
      subst hx hy hz
      exact observed_createTriangle_swap_bc _ _ _
    · obtain ⟨hx, hy, hz⟩ := h3
      subst hx hy hz
      exact observed_createTriangle_swap_ab _ _ _
    · obtain ⟨hx, hy, hz⟩ := h4
      subst hx hy hz
      exact (observed_createTriangle_swap_bc _ _ _).trans
        (observed_createTriangle_swap_ab _ _ _)
    · obtain ⟨hx, hy, hz⟩ := h5
      subst hx hy hz
      exact (observed_createTriangle_swap_ab _ _ _).trans
        (observed_createTriangle_swap_bc _ _ _)
    · obtain ⟨hx, hy, hz⟩ := h6
      subst hx hy hz
      exact ((observed_createTriangle_swap_ab _ _ _).trans
        (observed_createTriangle_swap_bc _ _ _)).trans (observed_createTriangle_swap_ab _ _ _)
  · apply observed_eq_elim
    rcases le_or_lt l 0 with hl | hl
    · rw [createRectangle_of_nonpos_length w hl]
      rcases le_or_lt w 0 with hw | hw
      · rw [createRectangle_of_nonpos_length l hw]
        rfl
      · rw [createRectangle_of_nonpos_breadth hw hl]
        rfl
    · rcases le_or_lt w 0 with hw | hw
      · rw [createRectangle_of_nonpos_breadth hl hw, createRectangle_of_nonpos_length l hw]
        rfl
      · rw [createRectangle_of_pos hl hw, createRectangle_of_pos hw hl]
        show some (l * w, 2 * (l + w)) = some (w * l, 2 * (w + l))
        rw [mul_comm l w, add_comm l w]

/-- Witness of C20: the sides 5, 3, 4 are a permutation of 3, 4, 5. -/
theorem createTriangle_symmetric_witness :
    [(5 : ℝ), 3, 4].Perm [3, 4, 5] ∧
    succeeds (createTriangle (5 : ℝ) 3 4) = succeeds (createTriangle (3 : ℝ) 4 5) ∧
    ∀ s s' : Shape ℝ, createTriangle (5 : ℝ) 3 4 = .ok s → createTriangle (3 : ℝ) 4 5 = .ok s' →
      s.getArea = s'.getArea ∧ s.getPerimeter = s'.getPerimeter :=
  have h : [(5 : ℝ), 3, 4].Perm [3, 4, 5] :=
    (List.Perm.swap 3 5 [4]).trans ((List.Perm.swap 4 5 []).cons 3)
  ⟨h, (createTriangle_symmetric (3 : ℝ) 4 5 5 3 4 1 1).1 h⟩

end Claims2

end DesignPatterns
